import Mathlib

/-!
Verification of the balance-sheet document-parsing core of the repository
(`src/balance_sheet_rag/src/parsers/*.py` and the document models).

Python strings are modelled as `List Char`; pandas dataframes as lists of
rows of cells (`Option (List Char)` before NaN-filling, `List Char` after);
exceptions as an explicit outcome type; the non-terminating chunking loop by
fuel; `Decimal`/float amounts as `ℚ` (all arithmetic reaching a claim is
exact in both representations).
-/

namespace BSRag

/-- Python strings are modelled as lists of characters. -/
abbrev Str := List Char

/-- Shorthand turning a Lean string literal into the model representation. -/
def strL (s : String) : Str := s.toList

/-- Characters matched by Python's `\s` (and stripped by `str.strip()`). -/
def pyIsSpace (c : Char) : Bool :=
  c = ' ' || c = '\t' || c = '\n' || c = '\r' || c = '\x0b' || c = '\x0c'

/-- Python `str.strip()`: remove leading and trailing whitespace. -/
def pyStrip (s : Str) : Str :=
  ((s.dropWhile pyIsSpace).reverse.dropWhile pyIsSpace).reverse

/-- Python `str.lower()` (the source only lowercases ASCII data). -/
def pyLower (s : Str) : Str := s.map Char.toLower

/-- Characters matched by the `[0-9,]` class of the currency regexes
(`base_parser.py`, `_setup_patterns`). -/
def digitOrComma (c : Char) : Bool := c.isDigit || c = ','

/-- Python slice `s[a:b]` for non-negative clamped bounds. -/
def pySlice (s : Str) (a b : Nat) : Str := (s.take b).drop a

/-- Join a list of strings with a single separator character
(Python `sep.join(parts)` for the one-character separators the source uses). -/
def joinSep (c : Char) (parts : List Str) : Str := List.intercalate [c] parts

/-- Python `text.split(sep)` for a one-character separator: split at every
occurrence, keeping empty pieces. -/
def pySplit (c : Char) (s : Str) : List Str :=
  s.foldr (fun d acc =>
    match acc with
    | [] => if d = c then [[], []] else [[d]]
    | l :: ls => if d = c then [] :: (l :: ls) else (d :: l) :: ls) [[]]

/-- First index of `t` as a substring of `s` (Python `s.find(t)`, with
`none` for Python's `-1`). -/
def findSub : Str → Str → Option Nat
  | s, t =>
    if t.isPrefixOf s then some 0
    else
      match s with
      | [] => none
      | _ :: s' => (findSub s' t).map (· + 1)

/-- Python `t in s` substring containment. -/
def containsSub (s t : Str) : Bool := (findSub s t).isSome

/-- At a position whose head is in `[0-9,]`, the extent matched by
`[0-9,]+(?:\.[0-9]{2})?`: the maximal digit-or-comma run, extended by a
decimal point plus exactly two digits when present. Returns the matched
text and the remaining input. -/
def splitNum (s : Str) : Str × Str :=
  let p := s.span digitOrComma
  match p.2 with
  | '.' :: d1 :: d2 :: rest =>
    if d1.isDigit && d2.isDigit then (p.1 ++ ['.', d1, d2], rest) else p
  | _ => p

/-- Fueled scanner for `re.findall` of the generic numeral pattern
`([0-9,]+(?:\.[0-9]{2})?)`: leftmost non-overlapping matches.  The fuel is
always instantiated with the input length, which suffices since every step
consumes at least one character. -/
def findallNumF : Nat → Str → List Str
  | 0, _ => []
  | _, [] => []
  | fuel + 1, c :: s =>
    if digitOrComma c then
      let pr := splitNum (c :: s)
      pr.1 :: findallNumF fuel pr.2
    else
      findallNumF fuel s

/-- Matches of the generic numeral pattern over a text. -/
def findallNum (s : Str) : List Str := findallNumF s.length s

/-- Fueled scanner for `re.findall` of a currency pattern
`SYM\s*([0-9,]+(?:\.[0-9]{2})?)`: at each occurrence of the symbol, skip
whitespace and require a numeral; the capture group (the numeral) is
collected. -/
def findallSymF (sym : Char) : Nat → Str → List Str
  | 0, _ => []
  | _, [] => []
  | fuel + 1, c :: s =>
    if c = sym then
      let s1 := s.dropWhile pyIsSpace
      match s1 with
      | d :: _ =>
        if digitOrComma d then
          let pr := splitNum s1
          pr.1 :: findallSymF sym fuel pr.2
        else
          findallSymF sym fuel s
      | [] => findallSymF sym fuel s
    else
      findallSymF sym fuel s

/-- Matches of a currency pattern over a text. -/
def findallSym (sym : Char) (s : Str) : List Str := findallSymF sym s.length s

/-- Numeric value of a digit string (helper for decimal parsing). -/
def digitsVal (s : Str) : Nat := s.foldl (fun a c => a * 10 + (c.toNat - 48)) 0

/-- Python's `Decimal` stores a sign, an integer coefficient and a decimal
exponent; `Dec` is that representation (value `num / 10 ^ exp`).  The
coefficient is an `Int` so that signedness is representable — the parsers
never produce a negative one, which is claim C10's point. -/
structure Dec where
  num : Int
  exp : Nat
deriving Repr, DecidableEq

/-- Numeric value of a decimal. -/
def Dec.toQ (d : Dec) : ℚ := (d.num : ℚ) / (10 : ℚ) ^ d.exp

/-- Python `float(d) > n` for a decimal and a non-negative integer
threshold (exact, since the comparison is equivalent to an integer one and
float rounding of the sources' magnitudes cannot cross it). -/
def Dec.gtNat (d : Dec) (n : Nat) : Bool := (n : Int) * (10 : Int) ^ d.exp < d.num

/-- Python `Decimal(text)` restricted to the shapes the comma-stripped
regex captures can take: an optional integer part and an optional fraction
separated by one dot, with at least one digit overall; anything else
(for example the empty string produced by a bare comma) raises
`InvalidOperation`, modelled as `none`. -/
def parseDec (s : Str) : Option Dec :=
  match pySplit '.' s with
  | [ip] =>
    if ip ≠ [] ∧ ip.all Char.isDigit then some ⟨(digitsVal ip : Int), 0⟩ else none
  | [ip, fp] =>
    if (ip ≠ [] ∨ fp ≠ []) ∧ ip.all Char.isDigit ∧ fp.all Char.isDigit then
      some ⟨(digitsVal (ip ++ fp) : Int), fp.length⟩
    else none
  | _ => none

/-- Python `match.replace(',', '')`. -/
def stripCommas (s : Str) : Str := s.filter (fun c => c ≠ ',')

/-- An extracted financial figure (`extract_financial_figures` result
entries: amount, currency, raw text, context). -/
structure Figure where
  amount : Dec
  currency : Str
  raw : Str
  context : Str
deriving Repr, DecidableEq

/-- The `_get_context` helper: the window of `window` characters around the
first (case-insensitive) occurrence of `term` in `text`; empty when the
term is absent. -/
def getContext (text term : Str) (window : Nat) : Str :=
  match findSub (pyLower text) (pyLower term) with
  | none => []
  | some position =>
    pySlice text (position - window) (min text.length (position + term.length + window))

/-- Build the figures for one currency pattern: each regex capture is
comma-stripped and parsed; unparsable captures are dropped. -/
def figsOf (cur : Str) (text : Str) (ms : List Str) : List Figure :=
  ms.filterMap fun m =>
    (parseDec (stripCommas m)).map fun a =>
      { amount := a, currency := cur, raw := m, context := getContext text m 50 }

/-- The `BaseParser.extract_financial_figures` entry point: the four
currency patterns (usd, eur, gbp, generic) applied in dictionary order,
results concatenated. -/
def extractFinancialFigures (text : Str) : List Figure :=
  figsOf (strL "USD") text (findallSym '$' text)
    ++ figsOf (strL "EUR") text (findallSym '€' text)
    ++ figsOf (strL "GBP") text (findallSym '£' text)
    ++ figsOf (strL "USD") text (findallNum text)

/-! ### A matcher for the financial-term regex patterns

The asset/liability/equity/scale/section patterns of `_setup_patterns` only
use literal characters, `\s+`, `.` (any character but newline), `.*`, and
an optional single character (`,?`, `s?`).  `PTok` is that pattern
language; `matchLenF` returns the length matched at the start of a string
following Python's backtracking priority (greedy `\s+` and `.*`, optional
item tried with the character first). -/

/-- One token of the restricted regex language used by the pattern library. -/
inductive PTok where
  | lit : Char → PTok
  | wsPlus : PTok
  | anyOne : PTok
  | anyStar : PTok
  | optC : Char → PTok
deriving Repr, DecidableEq

/-- Compile a plain literal string into pattern tokens. -/
def litToks (s : String) : List PTok := s.toList.map PTok.lit

/-- Fueled matcher: length matched by the token list at the start of the
string (`none` when there is no match).  Every recursive call shrinks
`ps.length + s.length`, so fuel `ps.length + s.length + 1` is exact. -/
def matchLenF : Nat → List PTok → Str → Option Nat
  | 0, _, _ => none
  | _ + 1, [], _ => some 0
  | fuel + 1, PTok.lit c :: ps, s =>
    match s with
    | d :: s' => if c = d then (matchLenF fuel ps s').map (· + 1) else none
    | [] => none
  | fuel + 1, PTok.wsPlus :: ps, s =>
    match s with
    | d :: s' =>
      if pyIsSpace d then
        match matchLenF fuel (PTok.wsPlus :: ps) s' with
        | some n => some (n + 1)
        | none => (matchLenF fuel ps s').map (· + 1)
      else none
    | [] => none
  | fuel + 1, PTok.anyOne :: ps, s =>
    match s with
    | d :: s' => if d ≠ '\n' then (matchLenF fuel ps s').map (· + 1) else none
    | [] => none
  | fuel + 1, PTok.anyStar :: ps, s =>
    match s with
    | d :: s' =>
      if d ≠ '\n' then
        match matchLenF fuel (PTok.anyStar :: ps) s' with
        | some n => some (n + 1)
        | none => matchLenF fuel ps (d :: s')
      else matchLenF fuel ps (d :: s')
    | [] => matchLenF fuel ps []
  | fuel + 1, PTok.optC c :: ps, s =>
    match s with
    | d :: s' =>
      if c = d then
        match matchLenF fuel ps s' with
        | some n => some (n + 1)
        | none => matchLenF fuel ps (d :: s')
      else matchLenF fuel ps (d :: s')
    | [] => matchLenF fuel ps []

/-- Length matched at the start of `s`, with exact fuel. -/
def matchLen (ps : List PTok) (s : Str) : Option Nat :=
  matchLenF (ps.length + s.length + 1) ps s

/-- Python `re.search(p, s)` as a match test: some left-to-right start
position admits a match. -/
def reSearch (ps : List PTok) (s : Str) : Bool :=
  (List.range (s.length + 1)).any fun i => (matchLen ps (s.drop i)).isSome

/-- Python `re.finditer(p, s)`: leftmost non-overlapping matches as
(start position, matched length) pairs.  All library patterns match at
least one character, so scanning resumes after each match. -/
def finditerF : Nat → List PTok → Str → Nat → List (Nat × Nat)
  | 0, _, _, _ => []
  | _ + 1, _, [], _ => []
  | fuel + 1, ps, c :: s, pos =>
    match matchLen ps (c :: s) with
    | some n =>
      if n = 0 then (pos, 0) :: finditerF fuel ps s (pos + 1)
      else (pos, n) :: finditerF fuel ps ((c :: s).drop n) (pos + n)
    | none => finditerF fuel ps s (pos + 1)

/-- All matches of a pattern over a string. -/
def finditer (ps : List PTok) (s : Str) : List (Nat × Nat) :=
  finditerF s.length ps s 0

/-- Join literal words with `\s+` (the dominant shape of the library
patterns). -/
def phr (ws : List String) : List PTok :=
  List.intercalate [PTok.wsPlus] (ws.map litToks)

/-! ### The pattern library (`BaseParser._setup_patterns`) -/

/-- The `asset_patterns` dictionary, in insertion order; values are the
`AssetCategory` enum values. -/
def assetPatterns : List (Str × List (List PTok)) :=
  [ (strL "cash_and_equivalents",
      [ phr ["cash", "and", "cash", "equivalents"],
        phr ["cash", "equivalents"],
        litToks "cash",
        litToks "short" ++ [PTok.anyOne] ++ litToks "term" ++ [PTok.wsPlus] ++ litToks "investments",
        phr ["marketable", "securities"] ]),
    (strL "accounts_receivable",
      [ phr ["accounts", "receivable"],
        litToks "receivables",
        phr ["trade", "receivables"],
        phr ["net", "receivables"] ]),
    (strL "inventory",
      [ litToks "inventory",
        litToks "inventories",
        phr ["raw", "materials"],
        phr ["work", "in", "process"],
        phr ["finished", "goods"] ]),
    (strL "property_plant_equipment",
      [ litToks "property" ++ [PTok.optC ','] ++ [PTok.wsPlus] ++ phr ["plant", "and", "equipment"],
        litToks "ppe",
        phr ["fixed", "assets"],
        phr ["plant", "and", "equipment"] ]) ]

/-- The `liability_patterns` dictionary, in insertion order. -/
def liabilityPatterns : List (Str × List (List PTok)) :=
  [ (strL "accounts_payable",
      [ phr ["accounts", "payable"],
        phr ["trade", "payables"],
        litToks "payables" ]),
    (strL "short_term_debt",
      [ litToks "short" ++ [PTok.anyOne] ++ litToks "term" ++ [PTok.wsPlus] ++ litToks "debt",
        phr ["current", "portion"] ++ [PTok.anyStar] ++ litToks "debt",
        phr ["notes", "payable"] ]),
    (strL "long_term_debt",
      [ litToks "long" ++ [PTok.anyOne] ++ litToks "term" ++ [PTok.wsPlus] ++ litToks "debt",
        litToks "debt" ++ [PTok.anyStar] ++ litToks "long" ++ [PTok.anyOne] ++ litToks "term",
        phr ["bonds", "payable"] ]) ]

/-- The `equity_patterns` dictionary, in insertion order. -/
def equityPatterns : List (Str × List (List PTok)) :=
  [ (strL "share_capital",
      [ phr ["common", "stock"],
        phr ["share", "capital"],
        phr ["capital", "stock"],
        phr ["ordinary", "shares"] ]),
    (strL "retained_earnings",
      [ phr ["retained", "earnings"],
        phr ["accumulated", "earnings"],
        phr ["earnings", "retained"] ]) ]

/-- First category (in insertion order) one of whose patterns matches the
lowercased label — the `for category, patterns / for pattern / return`
loops of `_categorize_balance_sheet_item`. -/
def firstMatchCat (cats : List (Str × List (List PTok))) (low : Str) : Option Str :=
  match cats with
  | [] => none
  | (nm, pats) :: rest =>
    if pats.any (fun p => reSearch p low) then some nm else firstMatchCat rest low

/-- Does any pattern of any category match? -/
def anyPatMatches (cats : List (Str × List (List PTok))) (low : Str) : Bool :=
  cats.any fun cp => cp.2.any fun p => reSearch p low

/-- Shared skeleton of `_categorize_balance_sheet_item` /
`_categorize_line_item` over the already-lowercased label: specific
patterns (asset, then liability, then equity categories, first match
wins), then the coarse keyword fallback lists, then "unknown". -/
def categorizeLow (assetKw liabKw equityKw : List String) (low : Str) : Str :=
  match firstMatchCat assetPatterns low with
  | some v => strL "asset_" ++ v
  | none =>
    match firstMatchCat liabilityPatterns low with
    | some v => strL "liability_" ++ v
    | none =>
      match firstMatchCat equityPatterns low with
      | some v => strL "equity_" ++ v
      | none =>
        if assetKw.any (fun t => containsSub low (strL t)) then strL "asset_other"
        else if liabKw.any (fun t => containsSub low (strL t)) then strL "liability_other"
        else if equityKw.any (fun t => containsSub low (strL t)) then strL "equity_other"
        else strL "unknown"

/-- The classifier applied to a raw label (`item_lower = item_name.lower()`). -/
def categorizeWith (assetKw liabKw equityKw : List String) (itemName : Str) : Str :=
  categorizeLow assetKw liabKw equityKw (pyLower itemName)

/-- The CSV parser's coarse asset keyword list (note `investment`,
absent from the Excel/PDF variants). -/
def csvAssetKw : List String :=
  ["asset", "cash", "receivable", "inventory", "property", "equipment", "investment"]

/-- The CSV parser's coarse liability keyword list (note `accrued`). -/
def csvLiabKw : List String :=
  ["liability", "payable", "debt", "loan", "obligation", "accrued"]

/-- The shared coarse equity keyword list. -/
def equityKw : List String :=
  ["equity", "capital", "earnings", "retained", "stock"]

/-- The Excel/PDF coarse asset keyword list. -/
def stdAssetKw : List String :=
  ["asset", "cash", "receivable", "inventory", "property", "equipment"]

/-- The Excel/PDF coarse liability keyword list. -/
def stdLiabKw : List String :=
  ["liability", "payable", "debt", "loan", "obligation"]

/-- The `CSVParser._categorize_balance_sheet_item` classifier. -/
def categorizeCsv (itemName : Str) : Str :=
  categorizeWith csvAssetKw csvLiabKw equityKw itemName

/-- The identical `ExcelParser._categorize_balance_sheet_item` and
`PDFParser._categorize_line_item` variants. -/
def categorizeStd (itemName : Str) : Str :=
  categorizeWith stdAssetKw stdLiabKw equityKw itemName

/-- The `detect_scale` scan.  The compiled patterns are
`(?:in\s+)?thousands?` (etc.) with IGNORECASE; under `re.search` the
optional `(?:in\s+)` prefix and the optional trailing `s` cannot affect
whether a match exists, so the test is a search for the stem over the
lowercased text. -/
def detectScale (text : Str) : Str :=
  let low := pyLower text
  if reSearch (litToks "thousand" ++ [PTok.optC 's']) low then strL "thousands"
  else if reSearch (litToks "million" ++ [PTok.optC 's']) low then strL "millions"
  else if reSearch (litToks "billion" ++ [PTok.optC 's']) low then strL "billions"
  else strL "units"

/-! ### Date extraction (`extract_dates`) -/

/-- Exactly `k` leading digits, returning them and the rest. -/
def takeDigits (k : Nat) (s : Str) : Option (Str × Str) :=
  let t := s.take k
  if t.length = k ∧ t.all Char.isDigit then some (t, s.drop k) else none

/-- One or more leading whitespace characters (`\s+`). -/
def takeWs (s : Str) : Option Str :=
  match s with
  | c :: rest => if pyIsSpace c then some (rest.dropWhile pyIsSpace) else none
  | [] => none

/-- Generic leftmost-non-overlapping scan with a position matcher that
returns the emitted string and the number of characters consumed. -/
def scanWith (m : Str → Option (Str × Nat)) : Nat → Str → List Str
  | 0, _ => []
  | _, [] => []
  | fuel + 1, c :: s =>
    match m (c :: s) with
    | some (o, n) => o :: scanWith m fuel ((c :: s).drop (max n 1))
    | none => scanWith m fuel s

/-- Matcher for `(\d4)-(\d2)-(\d2)` (findall tuples joined with dashes). -/
def matchYMD (s : Str) : Option (Str × Nat) := do
  let (y, s1) ← takeDigits 4 s
  match s1 with
  | '-' :: s2 =>
    let (mo, s3) ← takeDigits 2 s2
    match s3 with
    | '-' :: s4 =>
      let (d, _) ← takeDigits 2 s4
      pure (y ++ '-' :: (mo ++ '-' :: d), 10)
    | _ => none
  | _ => none

/-- Matcher for `(\d2)/(\d2)/(\d4)`; the three groups are joined with
dashes by `extract_dates`. -/
def matchMDY (s : Str) : Option (Str × Nat) := do
  let (mo, s1) ← takeDigits 2 s
  match s1 with
  | '/' :: s2 =>
    let (d, s3) ← takeDigits 2 s2
    match s3 with
    | '/' :: s4 =>
      let (y, _) ← takeDigits 4 s4
      pure (mo ++ '-' :: (d ++ '-' :: y), 10)
    | _ => none
  | _ => none

/-- Month names of the third date pattern. -/
def monthNames : List String :=
  ["january", "february", "march", "april", "may", "june", "july",
   "august", "september", "october", "november", "december"]

/-- A leading month name, case-insensitive; returns the original slice. -/
def takeMonth (s : Str) : Option (Str × Str) :=
  (monthNames.filter fun m => (strL m).isPrefixOf (pyLower s)).head?.map fun m =>
    (s.take m.length, s.drop m.length)

/-- Matcher for `(\d1,2)\s+(month)\s+(\d4)` with the greedy day first. -/
def matchDayMonthYear (s : Str) : Option (Str × Nat) :=
  let rest := fun (day : Str) (s1 : Str) => do
    let s2 ← takeWs s1
    let (mo, s3) ← takeMonth s2
    let s4 ← takeWs s3
    let (y, _) ← takeDigits 4 s4
    let consumed := day.length + (s1.length - s2.length) + mo.length
      + (s3.length - s4.length) + 4
    pure (day ++ '-' :: (mo ++ '-' :: y), consumed)
  match takeDigits 2 s with
  | some (d2, s1) =>
    match rest d2 s1 with
    | some r => some r
    | none =>
      match takeDigits 1 s with
      | some (d1, s1') => rest d1 s1'
      | none => none
  | none =>
    match takeDigits 1 s with
    | some (d1, s1') => rest d1 s1'
    | none => none

/-- The `extract_dates` scan: all three date patterns in order, matches
joined with dashes and concatenated. -/
def extractDates (text : Str) : List Str :=
  scanWith matchYMD text.length text
    ++ scanWith matchMDY text.length text
    ++ scanWith matchDayMonthYear text.length text

/-! ### Table structure detection (`detect_table_structure`) -/

/-- One detected table row: the stripped line and its figures. -/
structure DetRow where
  text : Str
  amounts : List Figure
deriving Repr, DecidableEq

/-- One detected table: accumulated rows and their count. -/
structure DetTable where
  rows : List DetRow
  rowCount : Nat
deriving Repr, DecidableEq

/-- The line loop of `detect_table_structure`: qualifying lines (at least
two recognized figures) accumulate; a non-qualifying line flushes the
accumulator as a table when it has at least three rows; the trailing
accumulator is flushed the same way. -/
def detectLoop : List Str → List DetRow → List DetTable
  | [], cur => if cur.length ≥ 3 then [⟨cur, cur.length⟩] else []
  | l :: ls, cur =>
    let amounts := extractFinancialFigures l
    if amounts.length ≥ 2 then
      detectLoop ls (cur ++ [⟨pyStrip l, amounts⟩])
    else
      (if cur.length ≥ 3 then [⟨cur, cur.length⟩] else []) ++ detectLoop ls []

/-- The `BaseParser.detect_table_structure` entry point. -/
def detectTableStructure (text : Str) : List DetTable :=
  detectLoop (pySplit '\n' text) []

/-! ### Text cleaning and chunking -/

/-- Is the character kept by `_clean_text`'s printable filter
(`[\x20-\x7E\n\r\t]`)? -/
def printableKeep (c : Char) : Bool :=
  (' ' ≤ c && c ≤ '~') || c = '\n' || c = '\r' || c = '\t'

/-- Fueled worker replacing each maximal whitespace run by one space
(`re.sub(r'\s+', ' ')`); fuel bounds the input length. -/
def collapseWsF : Nat → Str → Str
  | 0, _ => []
  | _, [] => []
  | fuel + 1, c :: s =>
    if pyIsSpace c then ' ' :: collapseWsF fuel (s.dropWhile pyIsSpace)
    else c :: collapseWsF fuel s

/-- Replace each maximal whitespace run by one space. -/
def collapseWs (s : Str) : Str := collapseWsF s.length s

/-- The `BaseParser._clean_text` pipeline: collapse whitespace, drop
non-printable characters, strip. -/
def cleanText (s : Str) : Str :=
  pyStrip ((collapseWs s).filter printableKeep)

/-- Highest index in `[a, b)` holding a period (Python
`text.rfind('.', a, b)`, `none` for `-1`). -/
def rfindDot (s : Str) (a b : Nat) : Option Nat :=
  (((List.range s.length).filter fun i =>
      a ≤ i ∧ i < b ∧ s.get? i = some '.').reverse).head?

/-- The `end` computation of one `_split_into_chunks` iteration:
`min(start + chunk_size, len(text))`, pulled back to just after a sentence
period found in the last 100 characters of the window (only when the
window stops short of the text end). -/
def splitEndAux (text : Str) (start e0 : Nat) : Nat :=
  if e0 < text.length then
    match rfindDot text (e0 - 100) e0 with
    | some p => if start < p then p + 1 else e0
    | none => e0
  else e0

/-- The window end of one iteration. -/
def splitEnd (text : Str) (chunkSize start : Nat) : Nat :=
  splitEndAux text start (min (start + chunkSize) text.length)

/-- The `while` loop of `_split_into_chunks`, made total by fuel.  The
real loop can only leave through `start = end - overlap ≥ len(text)`,
which for the source's parameters never holds once `end` has reached the
text length, so exhausted fuel (`none`) models genuine non-termination. -/
def splitLoop (text : Str) (chunkSize overlap : Nat) :
    Nat → Nat → List Str → Option (List Str)
  | 0, _, _ => none
  | fuel + 1, start, chunks =>
    if start < text.length then
      let e := splitEnd text chunkSize start
      let chunk := pyStrip (pySlice text start e)
      let chunks' := if chunk.isEmpty then chunks else chunks ++ [chunk]
      if e - overlap ≥ text.length then some chunks'
      else splitLoop text chunkSize overlap fuel (e - overlap) chunks'
    else some chunks

/-- The `BaseParser._split_into_chunks` entry point (the source always
calls it with the default `chunk_size=500`, `overlap=100`). -/
def splitIntoChunks (fuel : Nat) (text : Str) (chunkSize overlap : Nat) :
    Option (List Str) :=
  if text.length ≤ chunkSize then some [text]
  else splitLoop text chunkSize overlap fuel 0 []

/-! ### Balance-sheet item extraction over raw text
(`BaseParser.extract_balance_sheet_items`, used by the PDF back-end). -/

/-- One extracted raw-text line item. -/
structure BaseBSItem where
  name : Str
  category : Str
  amounts : List Figure
  position : Nat
deriving Repr, DecidableEq

/-- The three sections of `extract_balance_sheet_items`. -/
structure BaseBSItems where
  assets : List BaseBSItem
  liabilities : List BaseBSItem
  equity : List BaseBSItem
deriving Repr, DecidableEq

/-- Matches of each category's patterns over the text (IGNORECASE is
modelled by scanning the lowercased text; `match.group()` is the original
slice); items keep only matches whose ±100-character context contains a
figure, with `category.value` as the category string. -/
def itemsFor (cats : List (Str × List (List PTok))) (text : Str) : List BaseBSItem :=
  cats.flatMap fun cp =>
    cp.2.flatMap fun p =>
      (finditer p (pyLower text)).filterMap fun m =>
        let matched := pySlice text m.1 (m.1 + m.2)
        let amounts := extractFinancialFigures (getContext text matched 100)
        if amounts.isEmpty then none
        else some ⟨matched, cp.1, amounts, m.1⟩

/-- The `extract_balance_sheet_items` entry point. -/
def extractBalanceSheetItems (text : Str) : BaseBSItems :=
  ⟨itemsFor assetPatterns text, itemsFor liabilityPatterns text, itemsFor equityPatterns text⟩

/-! ### Document structure analysis (`PDFParser._analyze_document_structure`) -/

/-- One recorded statement-section header line. -/
structure SectionRec where
  type : Str
  title : Str
  lineNumber : Nat
  startPosition : Option Nat
deriving Repr, DecidableEq

/-- The document-structure record. -/
structure DocStructure where
  sections : List SectionRec
  hasBalanceSheet : Bool
  hasIncomeStatement : Bool
  hasCashFlow : Bool
deriving Repr, DecidableEq

/-- The statement-section header patterns, in dictionary order. -/
def sectionPatterns : List (Str × List (List PTok)) :=
  [ (strL "balance_sheet",
      [ phr ["balance", "sheet"],
        phr ["statement", "of", "financial", "position"],
        phr ["consolidated", "balance", "sheet"] ]),
    (strL "income_statement",
      [ phr ["income", "statement"],
        phr ["statement", "of", "operations"],
        phr ["profit", "and", "loss"] ]),
    (strL "cash_flow",
      [ phr ["cash", "flow"],
        phr ["statement", "of", "cash", "flows"] ]) ]

/-- The `_analyze_document_structure` scan: per line, for each section
type whose patterns match the lowered stripped line, record it and set the
corresponding flag. -/
def analyzeDocumentStructure (text : Str) : DocStructure :=
  let secs := (pySplit '\n' text).enum.flatMap fun il =>
    let lineLower := pyStrip (pyLower il.2)
    sectionPatterns.filterMap fun tp =>
      if tp.2.any (fun p => reSearch p lineLower) then
        some ⟨tp.1, pyStrip il.2, il.1, findSub text il.2⟩
      else none
  ⟨secs,
    secs.any (fun s => s.type = strL "balance_sheet"),
    secs.any (fun s => s.type = strL "income_statement"),
    secs.any (fun s => s.type = strL "cash_flow")⟩

/-! ### Dataframes

Pandas frames are modelled by their header labels and cell matrix; before
cleaning, a cell is `Option Str` (`none` is NaN, rendered `"nan"` by
Python's `str()`), after `fillna('') ... astype(str)` a plain string. -/

/-- A raw frame as produced by `pd.read_csv` / `pd.read_excel`,
cell values already rendered to their `str()` forms, with NaN explicit. -/
structure RawDF where
  headers : List Str
  cells : List (List (Option Str))
deriving Repr, DecidableEq

/-- Pandas `df.empty`: some axis has length zero. -/
def RawDF.isEmpty (d : RawDF) : Bool := d.cells.isEmpty || d.headers.isEmpty

/-- A cleaned (string-typed) frame. -/
structure DataFrame where
  headers : List Str
  rows : List (List Str)
deriving Repr, DecidableEq

/-- Pandas `df.empty` on the cleaned frame. -/
def DataFrame.isEmpty (d : DataFrame) : Bool := d.rows.isEmpty || d.headers.isEmpty

/-- Keep the entries of `l` whose position is marked in `mask`. -/
def maskFilter (mask : List Bool) (l : List α) : List α :=
  (l.zip mask).filterMap fun p => if p.2 then some p.1 else none

/-- The shared `_clean_dataframe` steps: `dropna(how='all')` on rows, then
on columns (a column survives iff some surviving row has a value there —
in particular a frame left without rows loses every column), then
`fillna('')` and `astype(str)`. -/
def cleanShared (d : RawDF) : DataFrame :=
  let rows1 := d.cells.filter fun r => r.any Option.isSome
  let mask := (List.range d.headers.length).map fun j =>
    rows1.any fun r => ((r.get? j).bind id).isSome
  ⟨maskFilter mask d.headers,
   rows1.map fun r => (maskFilter mask r).map fun c => c.getD []⟩

/-- The `ExcelParser._clean_dataframe` pipeline. -/
def cleanDataframeExcel (d : RawDF) : DataFrame := cleanShared d

/-- The `CSVParser._clean_dataframe` pipeline: the shared steps plus
dropping rows whose cells are all empty strings. -/
def cleanDataframeCsv (d : RawDF) : DataFrame :=
  let c := cleanShared d
  ⟨c.headers, c.rows.filter fun r => ¬ r.all fun cell => cell = []⟩

/-- The `CSVParser._dataframe_to_text` form: comma-joined header and rows,
dropping rows that are whitespace or one comma per missing cell. -/
def dataframeToTextCsv (df : DataFrame) : Str :=
  let headerLines := if df.headers.isEmpty then [] else [joinSep ',' df.headers]
  let rowLines := df.rows.filterMap fun r =>
    let t := joinSep ',' r
    if ¬(pyStrip t).isEmpty ∧ t ≠ List.replicate (r.length - 1) ',' then some t
    else none
  joinSep '\n' (headerLines ++ rowLines)

/-- The `ExcelParser._dataframe_to_text` form: tab-joined, dropping
whitespace-only rows. -/
def dataframeToTextExcel (df : DataFrame) : Str :=
  let headerLines := if df.headers.isEmpty then [] else [joinSep '\t' df.headers]
  let rowLines := df.rows.filterMap fun r =>
    let t := joinSep '\t' r
    if ¬(pyStrip t).isEmpty then some t else none
  joinSep '\n' (headerLines ++ rowLines)

/-- Render a raw frame the way `_dataframe_to_text`, applied before
cleaning (as `_identify_balance_sheet` does), sees it: `str()` of NaN is
the string `nan`. -/
def rawRender (d : RawDF) : DataFrame :=
  ⟨d.headers, d.cells.map fun r => r.map fun c => c.getD (strL "nan")⟩

/-- The `_is_balance_sheet_line_item` keyword test, parameterized by each
parser's term list. -/
def isBsItemWith (terms : List String) (itemName : Str) : Bool :=
  let low := pyLower itemName
  terms.any fun t => containsSub low (strL t)

/-- The CSV parser's balance-sheet term list. -/
def isBsLineItemCsv (itemName : Str) : Bool :=
  isBsItemWith
    ["cash", "receivable", "inventory", "asset", "property", "equipment",
     "investment", "goodwill", "intangible",
     "payable", "debt", "liability", "loan", "obligation", "accrued",
     "equity", "capital", "earnings", "retained", "stock", "share"] itemName

/-- The Excel parser's balance-sheet term list. -/
def isBsLineItemExcel (itemName : Str) : Bool :=
  isBsItemWith
    ["cash", "receivable", "inventory", "asset", "property", "equipment",
     "payable", "debt", "liability", "loan", "obligation",
     "equity", "capital", "earnings", "retained", "stock", "share"] itemName

/-- Python's skip test `not item_name or item_name.lower() in ['', 'nan', 'none']`. -/
def skipItemName (nm : Str) : Bool :=
  nm.isEmpty || pyLower nm = strL "nan" || pyLower nm = strL "none"

/-- One balance-sheet line item extracted from a dataframe row. -/
structure BSLineItem where
  name : Str
  category : Str
  amounts : List Figure
  rowData : List Str
deriving Repr, DecidableEq

/-- The three sections of `_extract_balance_sheet_from_dataframe`. -/
structure BSItems where
  assets : List BSLineItem
  liabilities : List BSLineItem
  equity : List BSLineItem
deriving Repr, DecidableEq

/-- The shared `_extract_balance_sheet_from_dataframe` loop (CSV and Excel
differ only in term list and categorizer): per row, the stripped first
cell is the name; balance-sheet items are categorized and bucketed by
category prefix, amounts extracted from the space-joined remaining cells. -/
def extractBsFromDf (isItem : Str → Bool) (cat : Str → Str) (df : DataFrame) : BSItems :=
  if df.isEmpty then ⟨[], [], []⟩
  else
    df.rows.foldl
      (fun acc r =>
        if r.isEmpty then acc
        else
          let nm := pyStrip (r.headD [])
          if skipItemName nm then acc
          else if isItem nm then
            let c := cat nm
            let amounts := extractFinancialFigures (joinSep ' ' (r.drop 1))
            let item : BSLineItem := ⟨nm, c, amounts, r⟩
            if (strL "asset_").isPrefixOf c then
              { acc with assets := acc.assets ++ [item] }
            else if (strL "liability_").isPrefixOf c then
              { acc with liabilities := acc.liabilities ++ [item] }
            else if (strL "equity_").isPrefixOf c then
              { acc with equity := acc.equity ++ [item] }
            else acc
          else acc)
      ⟨[], [], []⟩

/-- Pandas `pd.to_numeric(..., errors='coerce')` on a cell: an optionally
signed decimal numeral (`none` is NaN). -/
def pyFloatParse (s : Str) : Option Dec :=
  let t := pyStrip s
  let sgn : Bool := t.headD ' ' = '-'
  let u := if t.headD ' ' = '-' ∨ t.headD ' ' = '+' then t.drop 1 else t
  let sign : Int → Int := fun n => if sgn then -n else n
  match pySplit '.' u with
  | [ip] =>
    if ip ≠ [] ∧ ip.all Char.isDigit then some ⟨sign (digitsVal ip : Int), 0⟩ else none
  | [ip, fp] =>
    if (ip ≠ [] ∨ fp ≠ []) ∧ ip.all Char.isDigit ∧ fp.all Char.isDigit then
      some ⟨sign (digitsVal (ip ++ fp) : Int), fp.length⟩
    else none
  | _ => none

/-- Column `j` of a frame as cell values. -/
def colVals (df : DataFrame) (j : Nat) : List Str :=
  df.rows.map fun r => (r.get? j).getD []

/-- The `CSVParser._is_financial_dataframe` heuristic. -/
def isFinancialDataframeCsv (df : DataFrame) : Bool :=
  if df.isEmpty then false
  else
    let headers := df.headers.map pyLower
    let hasFinancialHeaders := headers.any fun h =>
      ["assets", "liabilities", "equity", "amount", "balance",
       "total", "current", "long-term", "cash", "receivables",
       "inventory", "debt", "capital", "earnings", "value"].any fun t =>
        containsSub h (strL t)
    let firstColumnText := joinSep ' ' ((df.rows.take 10).map fun r => pyLower (r.headD []))
    let hasFinancialItems :=
      ["cash", "receivable", "inventory", "payable", "debt", "equity",
       "asset", "liability"].any fun t => containsSub firstColumnText (strL t)
    let hasLargeNumbers := ((List.range df.headers.length).drop 1).any fun j =>
      let colText := joinSep ' ' ((colVals df j).take 5)
      let figs := extractFinancialFigures colText
      ¬figs.isEmpty ∧ figs.any fun f => f.amount.gtNat 1000
    hasFinancialHeaders || (hasFinancialItems && hasLargeNumbers)

/-- The `ExcelParser._is_financial_dataframe` heuristic (different header
terms, whole first column, `pd.to_numeric`-based number check — the
`max() > 1000` test holds iff some parsed value exceeds 1000). -/
def isFinancialDataframeExcel (df : DataFrame) : Bool :=
  if df.isEmpty then false
  else
    let headers := df.headers.map pyLower
    let hasFinancialHeaders := headers.any fun h =>
      ["assets", "liabilities", "equity", "amount", "balance",
       "total", "current", "long-term", "cash", "receivables",
       "inventory", "debt", "capital", "earnings", "year"].any fun t =>
        containsSub h (strL t)
    let hasFinancialItems :=
      if ¬df.isEmpty ∧ df.headers.length > 0 then
        let firstColumnText := joinSep ' ' (df.rows.map fun r => pyLower (r.headD []))
        ["cash", "receivable", "inventory", "payable", "debt", "equity"].any fun t =>
          containsSub firstColumnText (strL t)
      else false
    let hasFinancialNumbers := ((List.range df.headers.length).drop 1).any fun j =>
      let vals := (colVals df j).filterMap pyFloatParse
      ¬vals.isEmpty ∧ vals.any fun d => d.gtNat 1000
    hasFinancialHeaders || (hasFinancialItems && hasFinancialNumbers)

/-! ### Structured financial payloads and tables -/

/-- One line item of `_extract_financial_data_from_dataframe` /
`_extract_financial_data_from_table` (raw rows keep their pre-`str` cell
optionality; dataframe rows are wrapped in `some`). -/
structure FinLineItem where
  name : Str
  category : Str
  amounts : List Figure
  rawRow : List (Option Str)
deriving Repr, DecidableEq

/-- The structured financial payload of a table. -/
structure FinancialData where
  lineItems : List FinLineItem
  totals : List (Str × List Figure)
  currency : Str
  scale : Str
deriving Repr, DecidableEq

/-- The `CSVParser._extract_financial_data_from_dataframe` loop. -/
def finDataCsv (df : DataFrame) : FinancialData :=
  if df.isEmpty then ⟨[], [], strL "USD", strL "units"⟩
  else
    let scale := detectScale (dataframeToTextCsv df)
    df.rows.foldl
      (fun acc r =>
        if r.isEmpty then acc
        else
          let nm := pyStrip (r.headD [])
          if skipItemName nm then acc
          else
            let amounts := (r.drop 1).flatMap fun cell => extractFinancialFigures cell
            if ¬amounts.isEmpty ∨ isBsLineItemCsv nm then
              let item : FinLineItem := ⟨nm, categorizeCsv nm, amounts, r.map some⟩
              { acc with
                lineItems := acc.lineItems ++ [item],
                totals :=
                  if containsSub (pyLower nm) (strL "total") then
                    acc.totals ++ [(pyLower nm, amounts)]
                  else acc.totals }
            else acc)
      ⟨[], [], strL "USD", scale⟩

/-- The `ExcelParser._extract_financial_data_from_dataframe` loop (no
scale detection; no empty-row guard beyond the first-cell default). -/
def finDataExcel (df : DataFrame) : FinancialData :=
  if df.isEmpty then ⟨[], [], strL "USD", strL "units"⟩
  else
    df.rows.foldl
      (fun acc r =>
        let nm := pyStrip (r.headD [])
        if skipItemName nm then acc
        else
          let amounts := (r.drop 1).flatMap fun cell => extractFinancialFigures cell
          if ¬amounts.isEmpty ∨ isBsLineItemExcel nm then
            let item : FinLineItem := ⟨nm, categorizeStd nm, amounts, r.map some⟩
            { acc with
              lineItems := acc.lineItems ++ [item],
              totals :=
                if containsSub (pyLower nm) (strL "total") then
                  acc.totals ++ [(pyLower nm, amounts)]
                else acc.totals }
          else acc)
      ⟨[], [], strL "USD", strL "units"⟩

/-- A table produced by any back-end (the union of the per-back-end dict
shapes; fields a back-end does not set are `none`). -/
structure Table where
  sheetName : Option Str
  page : Option Nat
  tableIndex : Option Nat
  headers : List (Option Str)
  rows : List (List (Option Str))
  rowCount : Nat
  columnCount : Nat
  isFinancial : Bool
  financialData : Option FinancialData
deriving Repr, DecidableEq

/-- The `CSVParser._extract_table_from_dataframe` construction. -/
def tableFromDfCsv (df : DataFrame) : Option Table :=
  if df.isEmpty then none
  else
    let fin := isFinancialDataframeCsv df
    some
      { sheetName := none, page := none, tableIndex := none,
        headers := df.headers.map some,
        rows := df.rows.map fun r => r.map some,
        rowCount := df.rows.length, columnCount := df.headers.length,
        isFinancial := fin,
        financialData := if fin then some (finDataCsv df) else none }

/-- The `ExcelParser._extract_table_from_dataframe` construction. -/
def tableFromDfExcel (sheetName : Str) (df : DataFrame) : Option Table :=
  if df.isEmpty then none
  else
    let fin := isFinancialDataframeExcel df
    some
      { sheetName := some sheetName, page := none, tableIndex := none,
        headers := df.headers.map some,
        rows := df.rows.map fun r => r.map some,
        rowCount := df.rows.length, columnCount := df.headers.length,
        isFinancial := fin,
        financialData := if fin then some (finDataExcel df) else none }

/-! ### CSV structure analysis (`CSVParser._analyze_csv_structure`) -/

/-- The analysis record.  `confidence_score` and the float comparison with
`0.3` are exact at every reachable score, so `ℚ` is a faithful model of
the Python floats. -/
structure CsvAnalysis where
  likelyBalanceSheet : Bool
  confidenceScore : ℚ
  structureType : Str
  timeSeries : Bool
  multiPeriod : Bool
  identifiedSections : List Str
deriving Repr, DecidableEq

/-- The weighted-score analysis: +10 per balance-sheet term in the text,
+15 for two or more digit-bearing non-first column headers, +20 for five
or more balance-sheet first-column items (first 20 rows), +25 for two or
more section-header rows; confidence is the score over 100 clamped to 1,
and the final `likely_balance_sheet` is exactly `confidence > 0.3`. -/
def analyzeCsvStructure (df : DataFrame) : CsvAnalysis :=
  if df.isEmpty then ⟨false, 0, strL "unknown", false, false, []⟩
  else
    let allText := pyLower (dataframeToTextCsv df)
    let score1 := 10 * (["assets", "liabilities", "equity", "balance sheet"].filter
      fun t => containsSub allText (strL t)).length
    let tsFlag := df.headers.length > 2 ∧
      2 ≤ ((df.headers.drop 1).filter fun col => col.any Char.isDigit).length
    let score2 := score1 + if tsFlag then 15 else 0
    let bsCount := (((df.rows.take 20).map fun r => pyLower (r.headD [])).filter
      isBsLineItemCsv).length
    let likelyPre := 5 ≤ bsCount
    let score3 := score2 + if likelyPre then 20 else 0
    let sections := df.rows.filterMap fun r =>
      let nm := pyStrip (pyLower (r.headD []))
      if ["assets", "current assets", "non-current assets"].any
          (fun t => containsSub nm (strL t)) then some (strL "assets")
      else if ["liabilities", "current liabilities", "long-term"].any
          (fun t => containsSub nm (strL t)) then some (strL "liabilities")
      else if ["equity", "shareholders equity", "stockholders"].any
          (fun t => containsSub nm (strL t)) then some (strL "equity")
      else none
    let score4 := score3 + if 2 ≤ sections.length then 25 else 0
    let structureType :=
      if likelyPre then strL "balance_sheet"
      else if tsFlag then strL "time_series_financial"
      else if isFinancialDataframeCsv df then strL "financial_data"
      else strL "general_data"
    let conf : ℚ := min ((score4 : ℚ) / 100) 1
    ⟨decide ((3 : ℚ) / 10 < conf), conf, structureType, tsFlag, tsFlag,
      sections.dedup⟩

/-! ### Sheet scoring (`ExcelParser._identify_balance_sheet`) -/

/-- The score of one sheet: name keywords, content keywords, the
total-assets/total-liabilities bonus, and the is-financial bonus.
Content checks run on the raw (pre-clean) frame, where `str()` renders
NaN as `nan`. -/
def scoreSheet (nm : Str) (d : RawDF) : Nat :=
  let low := pyLower nm
  let nameScore :=
    if containsSub low (strL "balance") && containsSub low (strL "sheet") then 50
    else if containsSub low (strL "balance") then 30
    else if ["bs", "bsheet", "position"].any (fun t => containsSub low (strL t)) then 20
    else 0
  let contentScore :=
    if d.isEmpty then 0
    else
      let text := pyLower (dataframeToTextExcel (rawRender d))
      let termScore := 10 * (["assets", "liabilities", "equity", "current assets",
        "long-term debt"].filter fun t => containsSub text (strL t)).length
      let totalsScore :=
        if containsSub text (strL "total assets") &&
            containsSub text (strL "total liabilities") then 30 else 0
      let finScore := if isFinancialDataframeExcel (rawRender d) then 20 else 0
      termScore + totalsScore + finScore
  nameScore + contentScore

/-- The balance-sheet identification result. -/
structure IdentRes where
  sheetName : Option Str
  confidence : ℚ
  allScores : List (Str × Nat)
deriving Repr, DecidableEq

/-- Python `max(scores, key=scores.get)`: the first key of maximal score. -/
def bestOf : List (Str × Nat) → Option (Str × Nat)
  | [] => none
  | x :: xs => some (xs.foldl (fun b y => if b.2 < y.2 then y else b) x)

/-- The `_identify_balance_sheet` scan over all sheets. -/
def identifyBalanceSheet (sheets : List (Str × RawDF)) : IdentRes :=
  let scores := sheets.map fun s => (s.1, scoreSheet s.1 s.2)
  match bestOf scores with
  | some b => ⟨some b.1, min ((b.2 : ℚ) / 100) 1, scores⟩
  | none => ⟨none, 0, scores⟩

/-! ### PDF table extraction (`PDFParser._extract_tables_from_pdf`) -/

/-- A raw pdfplumber table: rows of possibly-`None` cells. -/
abbrev RawTable := List (List (Option Str))

/-- Python cell truthiness: present and non-empty. -/
def truthyCell : Option Str → Option Str
  | some s => if s.isEmpty then none else some s
  | none => none

/-- The `_is_financial_table` heuristic over a processed table. -/
def isFinancialTable (headers : List (Option Str)) (rows : List (List (Option Str))) : Bool :=
  if headers.isEmpty || rows.isEmpty then false
  else
    let hs := headers.filterMap fun h => (truthyCell h).map pyLower
    let hasFinancialHeaders := hs.any fun h =>
      ["assets", "liabilities", "equity", "amount", "balance",
       "total", "current", "long-term", "cash", "receivables",
       "inventory", "debt", "capital", "earnings"].any fun t =>
        containsSub h (strL t)
    let hasFinancialData := (rows.take 5).any fun r =>
      ¬(extractFinancialFigures (joinSep ' ' (r.filterMap truthyCell))).isEmpty
    hasFinancialHeaders || hasFinancialData

/-- The `_extract_financial_data_from_table` loop: amount columns are the
headers containing period/amount keywords; line items are rows with a
non-blank first cell and at least one figure in an amount column. -/
def finDataTable (headers : List (Option Str)) (rows : List (List (Option Str))) :
    FinancialData :=
  let amountCols := headers.enum.filterMap fun ih =>
    match truthyCell ih.2 with
    | some h =>
      if ["amount", "balance", "2023", "2022", "current", "year"].any
          (fun t => containsSub (pyLower h) (strL t)) then some ih.1
      else none
    | none => none
  let items := rows.filterMap fun r =>
    if r.isEmpty ∨ ¬r.any (fun c => (truthyCell c).isSome) then none
    else
      let itemName :=
        match r.headD none with
        | some s => if ¬s.isEmpty then s else []
        | none => []
      if (pyStrip itemName).isEmpty then none
      else
        let amounts := amountCols.flatMap fun j =>
          match (r.get? j).bind truthyCell with
          | some cell => extractFinancialFigures cell
          | none => []
        if amounts.isEmpty then none
        else some (⟨pyStrip itemName, categorizeStd itemName, amounts, r⟩ : FinLineItem)
  ⟨items, [], strL "USD", strL "units"⟩

/-- The page/table loops of `_extract_tables_from_pdf`: keep raw tables
with a header row and at least one data row. -/
def processPdfTables (pages : List (List RawTable)) : List Table :=
  pages.enum.flatMap fun pt =>
    pt.2.enum.filterMap fun tt =>
      let tbl := tt.2
      if ¬tbl.isEmpty ∧ tbl.length > 1 then
        let headers := tbl.headD []
        let rows := tbl.drop 1
        let fin := isFinancialTable headers rows
        some
          { sheetName := none, page := some (pt.1 + 1), tableIndex := some tt.1,
            headers := headers, rows := rows,
            rowCount := tbl.length - 1, columnCount := headers.length,
            isFinancial := fin,
            financialData := if fin then some (finDataTable headers rows) else none }
      else none

/-! ### XML trees (`xml.etree` elements) -/

/-- An element tree: tag, attributes, text, children. -/
inductive XmlElem where
  | node (tag : Str) (attrib : List (Str × Str)) (text : Option Str)
      (children : List XmlElem)

/-- Element tag. -/
def XmlElem.tag : XmlElem → Str
  | .node t _ _ _ => t

/-- Element attributes. -/
def XmlElem.attrib : XmlElem → List (Str × Str)
  | .node _ a _ _ => a

/-- Element children. -/
def XmlElem.children : XmlElem → List XmlElem
  | .node _ _ _ c => c

/-- The `_is_xbrl_document` sniff: `xbrl` in the root tag, in an attribute
name or value, or a context/unit/schemaRef child tag. -/
def isXbrlDocument (root : XmlElem) : Bool :=
  if containsSub (pyLower root.tag) (strL "xbrl") then true
  else if root.attrib.any (fun av =>
      containsSub (pyLower av.1) (strL "xbrl") ||
      containsSub (pyLower av.2) (strL "xbrl")) then true
  else root.children.any fun c =>
    ["context", "unit", "schemaref"].any fun t => containsSub (pyLower c.tag) (strL t)

/-- The recursive `element_to_text` serializer of `_xml_to_text`:
two-space indentation per level, `@attr: value` lines, stripped text
lines, then children one level deeper. -/
def xmlToTextLines : XmlElem → Nat → List Str
  | .node tag attrib txt children, level =>
    let indent := List.replicate (2 * level) ' '
    [indent ++ tag]
      ++ (if ¬attrib.isEmpty then
            attrib.map fun av => indent ++ strL "  @" ++ av.1 ++ strL ": " ++ av.2
          else [])
      ++ (match txt with
          | some t => if ¬t.isEmpty ∧ ¬(pyStrip t).isEmpty then
              [indent ++ [' ', ' '] ++ pyStrip t] else []
          | none => [])
      ++ (children.attach.map fun c => xmlToTextLines c.1 (level + 1)).flatten
termination_by e _ => sizeOf e
decreasing_by
  simp_wf
  have h := List.sizeOf_lt_of_mem c.2
  omega

/-- The `_xml_to_text` entry point. -/
def xmlToText (root : XmlElem) : Str := joinSep '\n' (xmlToTextLines root 0)

/-! ### The uniform result contract and the exception model -/

/-- One document chunk (`DocumentChunk`; the random `document_id` carries
no information and is omitted). -/
structure DocumentChunk where
  chunkIndex : Nat
  text : Str
  sectionType : Option Str
  financialFigures : List Figure
deriving Repr, DecidableEq

/-- The `ParsingResult` contract, with the per-back-end metadata dict as a
typed parameter. -/
structure ParsingResult (μ : Type) where
  success : Bool
  chunks : List DocumentChunk
  tables : List Table
  figures : List Figure
  metadata : Option μ
  errors : List Str
  warnings : List Str
deriving Repr, DecidableEq

/-- Outcome of running a `parse` body: a returned value, a raised Python
exception (its message), or non-termination. -/
inductive POut (α : Type) where
  | ok : α → POut α
  | raised : Str → POut α
  | hang : POut α
deriving Repr, DecidableEq

/-- Sequencing of outcomes (exception and divergence propagate). -/
def POut.bind : POut α → (α → POut β) → POut β
  | .ok a, f => f a
  | .raised e, _ => .raised e
  | .hang, _ => .hang

/-- A fallible library call as an outcome. -/
def ofExcept : Except Str α → POut α
  | .ok a => .ok a
  | .error e => .raised e

/-- The failure result each entry point builds
(`ParsingResult(success=False, errors=[...])`). -/
def failResult (e : Str) : ParsingResult μ := ⟨false, [], [], [], none, [e], []⟩

/-- The `for i, chunk_text in enumerate(text_chunks)` chunk construction. -/
def mkChunks (texts : List Str) (sec : Option Str) : List DocumentChunk :=
  texts.enum.map fun it => ⟨it.1, it.2, sec, extractFinancialFigures it.2⟩

/-- The top-level `except Exception as e` of every entry point: a raised
exception becomes `ParsingResult(success=False, errors=[prefix + str(e)])`;
divergence is not an exception and is not caught. -/
def catchAll (pre : Str) : POut (ParsingResult μ) → POut (ParsingResult μ)
  | .raised e => .ok (failResult (pre ++ e))
  | x => x

/-! ### The CSV back-end (`CSVParser.parse`)

External library interactions (chardet, the trial decodes, the six
`pd.read_csv` attempts, the pandas dataframe operations) are supplied by
an environment, each as a value or a raised exception, wired together
exactly as the source wires the corresponding calls. -/

/-- Result of `chardet.detect` (encoding can be `None`; confidence is a
float, whose only use is the comparison with 0.7). -/
structure ChardetInfo where
  encoding : Option Str
  confidence : ℚ
deriving Repr, DecidableEq

/-- Environment of one `CSVParser.parse` call. -/
structure CsvEnv where
  chardet : Except Str ChardetInfo
  probeOk : List Bool
  readAttempts : List (Except Str RawDF)
  libE : Except Str Unit
deriving Repr

/-- The encoding probe loop: the fixed fallback list, first successful
trial decode wins, else `utf-8`. -/
def probeEncodings (flags : List Bool) : Str :=
  match (["utf-8", "latin-1", "cp1252", "iso-8859-1"].zip flags).find? (fun p => p.2) with
  | some p => strL p.1
  | none => strL "utf-8"

/-- The `_detect_encoding` helper: any failure of the read/detect step
falls back to `utf-8`; a missing encoding or confidence below 0.7 probes
the fallback list.  Never raises. -/
def detectEncoding (env : CsvEnv) : Str :=
  match env.chardet with
  | .error _ => strL "utf-8"
  | .ok info =>
    match info.encoding with
    | none => probeEncodings env.probeOk
    | some enc =>
      if info.confidence < (7 : ℚ) / 10 then probeEncodings env.probeOk else enc

/-- The `_read_csv_with_fallbacks` helper: first attempt that neither
raises nor yields an empty or single-column frame wins; exhaustion yields
`None`.  Never raises (each attempt's exception is swallowed). -/
def readCsvWithFallbacks (attempts : List (Except Str RawDF)) : Option RawDF :=
  attempts.findSome? fun a =>
    match a with
    | .ok df => if ¬df.isEmpty ∧ df.headers.length > 1 then some df else none
    | .error _ => none

/-- The CSV metadata dict. -/
structure CsvMeta where
  encoding : Str
  rowCount : Nat
  columnCount : Nat
  columns : List Str
  structureAnalysis : CsvAnalysis
  balanceSheetItems : BSItems
  scale : Str
deriving Repr, DecidableEq

/-- The body of the `try` block of `CSVParser.parse`. -/
def csvBody (env : CsvEnv) (fuel : Nat) : POut (ParsingResult CsvMeta) :=
  (
    let encoding := detectEncoding env
    match readCsvWithFallbacks env.readAttempts with
    | none => .ok (failResult (strL "Failed to read CSV file or file is empty"))
    | some df =>
      if df.isEmpty then .ok (failResult (strL "Failed to read CSV file or file is empty"))
      else
        (ofExcept env.libE).bind fun _ =>
        let dfC := cleanDataframeCsv df
        let csvText := dataframeToTextCsv dfC
        match splitIntoChunks fuel csvText 500 100 with
        | none => .hang
        | some texts =>
          .ok { success := true,
                chunks := mkChunks texts (some (strL "csv_data")),
                tables := match tableFromDfCsv dfC with | some t => [t] | none => [],
                figures := extractFinancialFigures csvText,
                metadata := some
                  ⟨encoding, dfC.rows.length, dfC.headers.length, dfC.headers,
                    analyzeCsvStructure dfC,
                    extractBsFromDf isBsLineItemCsv categorizeCsv dfC,
                    detectScale csvText⟩,
                errors := [], warnings := [] })

/-- The `CSVParser.parse` entry point. -/
def csvParse (env : CsvEnv) (fuel : Nat) : POut (ParsingResult CsvMeta) :=
  catchAll (strL "CSV parsing failed: ") (csvBody env fuel)

/-! ### The PDF back-end (`PDFParser.parse`) -/

/-- The PDF metadata dict. -/
structure PdfMeta where
  pageCount : Nat
  scale : Str
  dates : List Str
  balanceSheetItems : BaseBSItems
  documentStructure : DocStructure
  extractionMethod : Str
deriving Repr, DecidableEq

/-- The `_determine_extraction_method` helper: a stub that always reports
`pdfplumber` (its own comment notes it does not track the method used). -/
def determineExtractionMethod : Str := strL "pdfplumber"

/-- Environment of one `PDFParser.parse` call: the three extraction
helpers (each swallows its own exceptions and returns a string), the raw
pdfplumber page tables (with a flag for the internally-caught open
failure of `_extract_tables_from_pdf`), the page count (whose helper
catches everything and defaults to 0), and the fallible library work of
the success path. -/
structure PdfEnv where
  plumberText : Str
  pypdfText : Str
  ocrText : Str
  tablesOk : Bool
  pages : List (List RawTable)
  pageCount : Nat
  libE : Except Str Unit
deriving Repr

/-- Stage two of the fallback chain: the pdfplumber text unless it is
falsy or under 100 stripped characters, in which case the PyPDF2 text. -/
def pdfText2 (env : PdfEnv) : Str :=
  if env.plumberText.isEmpty ∨ (pyStrip env.plumberText).length < 100 then env.pypdfText
  else env.plumberText

/-- Was the OCR stage reached (stage two still falsy or under 100
stripped characters)? -/
def pdfUsedOcr (env : PdfEnv) : Prop :=
  (pdfText2 env).isEmpty = true ∨ (pyStrip (pdfText2 env)).length < 100

instance (env : PdfEnv) : Decidable (pdfUsedOcr env) := by
  unfold pdfUsedOcr; infer_instance

/-- The final `text_content` after the three-stage chain. -/
def pdfSelectedText (env : PdfEnv) : Str :=
  if pdfUsedOcr env then env.ocrText else pdfText2 env

/-- The OCR warning, attached exactly when OCR ran and returned text. -/
def pdfWarns (env : PdfEnv) : List Str :=
  if pdfUsedOcr env ∧ ¬env.ocrText.isEmpty then
    [strL "Text extracted using OCR - accuracy may be lower"]
  else []

/-- The body of the `try` block of `PDFParser.parse`: the three-stage
fallback chain, the OCR warning, the empty-text error, then cleaning,
chunking, tables, figures and metadata. -/
def pdfBody (env : PdfEnv) (fuel : Nat) : POut (ParsingResult PdfMeta) :=
  (
    if (pdfSelectedText env).isEmpty then
      .ok { success := false, chunks := [], tables := [], figures := [],
            metadata := none,
            errors := [strL "Failed to extract text from PDF"], warnings := pdfWarns env }
    else
      (ofExcept env.libE).bind fun _ =>
      let cleaned := cleanText (pdfSelectedText env)
      match splitIntoChunks fuel cleaned 500 100 with
      | none => .hang
      | some texts =>
        .ok { success := true,
              chunks := mkChunks texts none,
              tables := if env.tablesOk then processPdfTables env.pages else [],
              figures := extractFinancialFigures cleaned,
              metadata := some
                ⟨env.pageCount, detectScale cleaned, extractDates cleaned,
                  extractBalanceSheetItems cleaned, analyzeDocumentStructure cleaned,
                  determineExtractionMethod⟩,
              errors := [], warnings := pdfWarns env })

/-- The `PDFParser.parse` entry point. -/
def pdfParse (env : PdfEnv) (fuel : Nat) : POut (ParsingResult PdfMeta) :=
  catchAll (strL "PDF parsing failed: ") (pdfBody env fuel)

/-! ### The XML/XBRL back-end (`XMLParser.parse`)

`ET.parse` and the XBRL / plain-XML analyses are environment-supplied
fallible steps (the analyses' internals are irrelevant to every claim);
sniffing, serialization, chunking and figures are computed. -/

/-- One extracted XBRL fact / XML element item (payload detail opaque to
the claims). -/
structure XmlFact where
  name : Str
  value : Str
deriving Repr, DecidableEq

/-- The bucketed balance-sheet data of the XML paths. -/
structure XmlSections where
  assets : List XmlFact
  liabilities : List XmlFact
  equity : List XmlFact
deriving Repr, DecidableEq

/-- The analysis payload of `_parse_xbrl` / `_parse_regular_xml`. -/
structure XmlParsed where
  tables : List Table
  balanceSheetData : XmlSections
  entityInfo : List (Str × Str)
  reportingPeriod : List (Str × Str)
deriving Repr, DecidableEq

/-- The XML metadata dict. -/
structure XmlMeta where
  isXbrl : Bool
  documentType : Str
  namespaces : List (Str × Str)
  balanceSheetData : XmlSections
  entityInfo : List (Str × Str)
  reportingPeriod : List (Str × Str)
  scale : Str
deriving Repr, DecidableEq

/-- Environment of one `XMLParser.parse` call. -/
structure XmlEnv where
  tree : Except Str XmlElem
  parsedXbrl : Except Str XmlParsed
  parsedXml : Except Str XmlParsed

/-- The body of the `try` block of `XMLParser.parse`. -/
def xmlBody (env : XmlEnv) (fuel : Nat) : POut (ParsingResult XmlMeta) :=
  (
    (ofExcept env.tree).bind fun root =>
    let isX := isXbrlDocument root
    (ofExcept (if isX then env.parsedXbrl else env.parsedXml)).bind fun parsed =>
    let xmlText := xmlToText root
    match splitIntoChunks fuel xmlText 500 100 with
    | none => .hang
    | some texts =>
      .ok { success := true,
            chunks := mkChunks texts
              (some (if isX then strL "xbrl_data" else strL "xml_data")),
            tables := parsed.tables,
            figures := extractFinancialFigures xmlText,
            metadata := some
              ⟨isX, (if isX then strL "xbrl" else strL "xml"), root.attrib,
                parsed.balanceSheetData, parsed.entityInfo, parsed.reportingPeriod,
                detectScale xmlText⟩,
            errors := [], warnings := [] })

/-- The `XMLParser.parse` entry point. -/
def xmlParse (env : XmlEnv) (fuel : Nat) : POut (ParsingResult XmlMeta) :=
  catchAll (strL "XML/XBRL parsing failed: ") (xmlBody env fuel)

/-! ### The spreadsheet back-end (`ExcelParser.parse`) -/

/-- The Excel metadata dict. -/
structure ExcelMeta where
  sheetCount : Nat
  sheetNames : List Str
  balanceSheetSheet : Option Str
  balanceSheetConfidence : ℚ
  balanceSheetItems : BSItems
  fileFormat : Str
deriving Repr, DecidableEq

/-- The per-sheet result dict of `_process_sheet`. -/
structure SheetRes where
  chunks : List DocumentChunk
  tables : List Table
  figures : List Figure
  balanceSheetItems : BSItems
deriving Repr, DecidableEq

/-- The `_process_sheet` helper: empty sheets produce the empty result;
otherwise clean, textify, chunk (per-sheet indices starting at 0 with the
`sheet_<name>` section type), extract the table, figures and items.
`none` models the chunking loop never returning. -/
def processSheet (fuel : Nat) (sheetName : Str) (df : RawDF) : Option SheetRes :=
  if df.isEmpty then some ⟨[], [], [], ⟨[], [], []⟩⟩
  else
    let dfC := cleanDataframeExcel df
    let sheetText := dataframeToTextExcel dfC
    (splitIntoChunks fuel sheetText 500 100).map fun texts =>
      ⟨mkChunks texts (some (strL "sheet_" ++ sheetName)),
       (match tableFromDfExcel sheetName dfC with | some t => [t] | none => []),
       extractFinancialFigures sheetText,
       extractBsFromDf isBsLineItemExcel categorizeStd dfC⟩

/-- Environment of one `ExcelParser.parse` call: the two read attempts
(openpyxl then xlrd), the file suffix, and the fallible library work. -/
structure ExcelEnv where
  readOpenpyxl : Except Str (List (Str × RawDF))
  readXlrd : Except Str (List (Str × RawDF))
  suffix : Str
  libE : Except Str Unit
deriving Repr

/-- The sheet dictionary the parse would work on (empty when both reads
fail — that case returns before using it). -/
def excelSheetsOf (env : ExcelEnv) : List (Str × RawDF) :=
  match env.readOpenpyxl with
  | .ok s => s
  | .error _ => match env.readXlrd with | .ok s => s | .error _ => []

/-- Concatenate per-sheet balance-sheet items by section. -/
def mergeBs (a b : BSItems) : BSItems :=
  ⟨a.assets ++ b.assets, a.liabilities ++ b.liabilities, a.equity ++ b.equity⟩

/-- The `for sheet_name, df in all_sheets.items()` loop: process the
sheets in order; a never-terminating chunking in any sheet hangs the whole
loop. -/
def processAll (fuel : Nat) : List (Str × RawDF) → Option (List SheetRes)
  | [] => some []
  | s :: ss =>
    match processSheet fuel s.1 s.2 with
    | none => none
    | some r => (processAll fuel ss).map fun rest => r :: rest

/-- The body after a successful sheet read: the empty-dict error, then
per-sheet processing, cross-sheet merging, sheet identification, metadata. -/
def excelBody (env : ExcelEnv) (fuel : Nat) (sheets : List (Str × RawDF)) :
    POut (ParsingResult ExcelMeta) :=
  if sheets.isEmpty then .ok (failResult (strL "No sheets found in Excel file"))
  else
    (ofExcept env.libE).bind fun _ =>
    match processAll fuel sheets with
    | none => .hang
    | some rs =>
      let ident := identifyBalanceSheet sheets
      .ok { success := true,
            chunks := rs.flatMap (·.chunks),
            tables := rs.flatMap (·.tables),
            figures := rs.flatMap (·.figures),
            metadata := some
              ⟨sheets.length, sheets.map (·.1), ident.sheetName, ident.confidence,
                rs.foldl (fun a r => mergeBs a r.balanceSheetItems) ⟨[], [], []⟩,
                env.suffix⟩,
            errors := [], warnings := [] }

/-- The body of the `try` block of `ExcelParser.parse`: openpyxl read,
xlrd fallback, explicit read-failure error, then the shared body. -/
def excelTry (env : ExcelEnv) (fuel : Nat) : POut (ParsingResult ExcelMeta) :=
  match env.readOpenpyxl with
  | .ok sheets => excelBody env fuel sheets
  | .error _ =>
    match env.readXlrd with
    | .ok sheets => excelBody env fuel sheets
    | .error e => .ok (failResult (strL "Failed to read Excel file: " ++ e))

/-- The `ExcelParser.parse` entry point. -/
def excelParse (env : ExcelEnv) (fuel : Nat) : POut (ParsingResult ExcelMeta) :=
  catchAll (strL "Excel parsing failed: ") (excelTry env fuel)

/-! ## Supporting definitions for the claim statements -/

/-- Is the outcome a returned result? -/
def POut.isOk : POut α → Bool
  | .ok _ => true
  | _ => false

/-- The returned result, with a default for the other outcomes. -/
def POut.resultD (o : POut α) (d : α) : α :=
  match o with
  | .ok r => r
  | _ => d

/-! ## Lemmas about chunking -/

theorem rfindDot_lt (s : Str) (a b p : Nat) (h : rfindDot s a b = some p) : p < b := by
  unfold rfindDot at h
  have hp : p ∈ (List.range s.length).filter fun i =>
      a ≤ i ∧ i < b ∧ s.get? i = some '.' := by
    rw [← List.mem_reverse]
    exact List.mem_of_mem_head? (Option.mem_def.mpr h)
  exact (of_decide_eq_true (List.mem_filter.mp hp).2).2.1

theorem splitEndAux_le (text : Str) (start e0 : Nat) (h : e0 ≤ text.length) :
    splitEndAux text start e0 ≤ text.length := by
  unfold splitEndAux
  split
  · split
    · rename_i p hr
      have := rfindDot_lt text _ _ p hr
      split <;> omega
    · omega
  · omega

theorem splitEnd_le (text : Str) (c start : Nat) : splitEnd text c start ≤ text.length := by
  unfold splitEnd
  exact splitEndAux_le text start _ (by omega)

/-- Once the text is longer than the chunk size, the loop can never exit:
every iteration ends with `start = end - overlap < len(text)`, so the
`while` guard stays true and the `break` is unreachable. -/
theorem splitLoop_none (text : Str) :
    ∀ fuel start acc, start < text.length →
      splitLoop text 500 100 fuel start acc = none := by
  intro fuel
  induction fuel with
  | zero => intro start acc _; rfl
  | succ n ih =>
    intro start acc hstart
    have hE := splitEnd_le text 500 start
    have hlt : splitEnd text 500 start - 100 < text.length := by omega
    unfold splitLoop
    rw [if_pos hstart, if_neg (by omega : ¬ splitEnd text 500 start - 100 ≥ text.length)]
    exact ih _ _ hlt

theorem splitIntoChunks_short (text : Str) (h : text.length ≤ 500) (fuel : Nat) :
    splitIntoChunks fuel text 500 100 = some [text] := by
  unfold splitIntoChunks
  simp [h]

/-- Whenever the chunker returns at all (with the source's parameters), it
returns the single chunk `[text]`. -/
theorem splitIntoChunks_eq (fuel : Nat) (text : Str) (cs : List Str)
    (h : splitIntoChunks fuel text 500 100 = some cs) : cs = [text] := by
  by_cases hl : text.length ≤ 500
  · rw [splitIntoChunks_short text hl fuel] at h
    exact (Option.some_injective _ h).symm
  · exfalso
    have : splitIntoChunks fuel text 500 100 = none := by
      unfold splitIntoChunks
      simp only [hl, if_false]
      exact splitLoop_none text fuel 0 [] (by omega)
    rw [this] at h
    cases h

/-- A text of 501 identical non-period characters, on which the chunking
loop never terminates. -/
def c9bad : Str := List.replicate 501 'a'

/-- C9: the first half of the claim holds — a text no longer than the
configured chunk size comes back as exactly one chunk equal to the input
(shown at a concrete short text, for every fuel) — but the second half
fails in the strongest possible way: for any text longer than the chunk
size the loop never returns (here: 501 letters `a`), because
`start = end - overlap` can never reach the text length; so no chunk list
is produced at all and nothing can be said about preserved content. -/
theorem C9_chunking_diverges :
    (∀ fuel, splitIntoChunks fuel (strL "hello world") 500 100 =
      some [strL "hello world"]) ∧
    (∀ fuel, splitIntoChunks fuel c9bad 500 100 = none) := by
  constructor
  · intro fuel
    exact splitIntoChunks_short _ (by decide) fuel
  · intro fuel
    have hlen : c9bad.length = 501 := by
      rw [c9bad, List.length_replicate]
    unfold splitIntoChunks
    rw [if_neg (by omega)]
    exact splitLoop_none c9bad fuel 0 [] (by omega)

/-! ## Claim C10: lemmas on the characters a numeral capture can hold -/

/-- A character of a pattern capture is a digit, a comma or the decimal
point. -/
def numChar (c : Char) : Prop := digitOrComma c = true ∨ c = '.'

theorem splitNum_chars (s : Str) (c : Char) (hc : c ∈ (splitNum s).1) : numChar c := by
  unfold splitNum at hc
  rw [List.span_eq_take_drop] at hc
  dsimp only at hc
  split at hc
  · rename_i d1 d2 rest heq
    split at hc
    · rename_i hd
      rcases List.mem_append.mp hc with h | h
      · exact Or.inl (List.mem_takeWhile_imp h)
      · rcases List.mem_cons.mp h with rfl | h
        · exact Or.inr rfl
        · rcases List.mem_cons.mp h with rfl | h
          · exact Or.inl (by simp [digitOrComma, (Bool.and_eq_true _ _ |>.mp hd).1])
          · rcases List.mem_cons.mp h with rfl | h
            · exact Or.inl (by simp [digitOrComma, (Bool.and_eq_true _ _ |>.mp hd).2])
            · exact absurd h (List.not_mem_nil c)
    · exact Or.inl (List.mem_takeWhile_imp hc)
  · exact Or.inl (List.mem_takeWhile_imp hc)

theorem findallNumF_chars (fuel : Nat) (s : Str) (m : Str)
    (hm : m ∈ findallNumF fuel s) (c : Char) (hc : c ∈ m) : numChar c := by
  induction fuel generalizing s with
  | zero => simp [findallNumF] at hm
  | succ n ih =>
    cases s with
    | nil => simp [findallNumF] at hm
    | cons d t =>
      unfold findallNumF at hm
      dsimp only at hm
      split at hm
      · rcases List.mem_cons.mp hm with rfl | hm
        · exact splitNum_chars _ c hc
        · exact ih _ hm
      · exact ih _ hm

theorem findallSymF_chars (sym : Char) (fuel : Nat) (s : Str) (m : Str)
    (hm : m ∈ findallSymF sym fuel s) (c : Char) (hc : c ∈ m) : numChar c := by
  induction fuel generalizing s with
  | zero => simp [findallSymF] at hm
  | succ n ih =>
    cases s with
    | nil => simp [findallSymF] at hm
    | cons d t =>
      unfold findallSymF at hm
      dsimp only at hm
      split at hm
      · split at hm
        · split at hm
          · rcases List.mem_cons.mp hm with rfl | hm
            · exact splitNum_chars _ c hc
            · exact ih _ hm
          · exact ih _ hm
        · exact ih _ hm
      · exact ih _ hm

theorem parseDec_nonneg (s : Str) (d : Dec) (h : parseDec s = some d) : 0 ≤ d.num := by
  unfold parseDec at h
  split at h
  · split at h
    · injection h with h
      subst h
      exact Int.natCast_nonneg _
    · cases h
  · split at h
    · injection h with h
      subst h
      exact Int.natCast_nonneg _
    · cases h
  · cases h

/-- Membership in one pattern's figure list comes from a capture of that
pattern, with the amount parsed from it. -/
theorem figsOf_mem (cur text : Str) (ms : List Str) (f : Figure)
    (hf : f ∈ figsOf cur text ms) :
    ∃ m ∈ ms, parseDec (stripCommas m) = some f.amount ∧ f.raw = m := by
  unfold figsOf at hf
  rcases List.mem_filterMap.mp hf with ⟨m, hm, hsome⟩
  rcases Option.map_eq_some'.mp hsome with ⟨a, ha, rfl⟩
  exact ⟨m, hm, ha, rfl⟩

theorem stripCommas_chars (m : Str) (c : Char) (hc : c ∈ stripCommas m) : c ∈ m :=
  List.mem_of_mem_filter hc

theorem findallSym_chars (sym : Char) (s : Str) (m : Str)
    (hm : m ∈ findallSym sym s) (c : Char) (hc : c ∈ m) : numChar c :=
  findallSymF_chars sym s.length s m hm c hc

theorem findallNum_chars (s : Str) (m : Str)
    (hm : m ∈ findallNum s) (c : Char) (hc : c ∈ m) : numChar c :=
  findallNumF_chars s.length s m hm c hc

/-- C10: every figure any pattern extracts has a non-negative amount
coefficient — the character classes of the patterns only capture digits,
commas and the decimal point, so a minus sign or accounting parentheses
around a numeral are left out of the capture; concretely, `-100` and
`(1,000)` are both reported as positive amounts. -/
theorem C10_amounts_unsigned :
    (∀ text f, f ∈ extractFinancialFigures text →
      0 ≤ f.amount.num ∧ ∀ c ∈ f.raw, numChar c) ∧
    (extractFinancialFigures (strL "-100")).map Figure.amount = [⟨100, 0⟩] ∧
    (extractFinancialFigures (strL "(1,000)")).map Figure.amount = [⟨1000, 0⟩] := by
  refine ⟨?_, by decide, by decide⟩
  intro text f hf
  have key : ∀ cur ms, (∀ m ∈ ms, ∀ c ∈ m, numChar c) → f ∈ figsOf cur text ms →
      0 ≤ f.amount.num ∧ ∀ c ∈ f.raw, numChar c := by
    intro cur ms hms hmem
    obtain ⟨m, hm, hparse, hraw⟩ := figsOf_mem cur text ms f hmem
    refine ⟨parseDec_nonneg _ _ hparse, ?_⟩
    rw [hraw]
    exact hms m hm
  unfold extractFinancialFigures at hf
  rcases List.mem_append.mp hf with h1 | hgen
  · rcases List.mem_append.mp h1 with h2 | hgbp
    · rcases List.mem_append.mp h2 with husd | heur
      · exact key _ _ (findallSym_chars '$' text) husd
      · exact key _ _ (findallSym_chars '€' text) heur
    · exact key _ _ (findallSym_chars '£' text) hgbp
  · exact key _ _ (findallNum_chars text) hgen

/-- C10 witness: the single figure extracted from `$5` (by the currency
pattern) has a non-negative coefficient. -/
theorem C10_witness :
    0 ≤ (Figure.mk ⟨5, 0⟩ (strL "USD") (strL "5") (strL "$5")).amount.num :=
  (C10_amounts_unsigned.1 (strL "$5")
    (Figure.mk ⟨5, 0⟩ (strL "USD") (strL "5") (strL "$5")) (by decide)).1

/-! ## Lemmas on the uniform result contract (for C1, C2 and C3) -/

/-- The invariant each non-spreadsheet body maintains on every returned
result: failure states carry errors and success states carry at least one
chunk, indexed `0, 1, 2, …`. -/
def ResultInv (r : ParsingResult μ) : Prop :=
  (r.success = false ↔ r.errors ≠ []) ∧
  (r.success = true → r.chunks ≠ []) ∧
  r.chunks.map DocumentChunk.chunkIndex = List.range r.chunks.length

theorem failResult_inv (e : Str) : ResultInv (failResult (μ := μ) e) := by
  refine ⟨by simp [failResult], by simp [failResult], ?_⟩
  simp [failResult]

theorem catchAll_ne_raised (pre : Str) (o : POut (ParsingResult μ)) (e : Str) :
    catchAll pre o ≠ POut.raised e := by
  cases o <;> simp [catchAll]

theorem catchAll_ok (pre : Str) (o : POut (ParsingResult μ)) (r : ParsingResult μ)
    (h : catchAll pre o = POut.ok r) :
    (∃ e, r = failResult (pre ++ e)) ∨ o = POut.ok r := by
  cases o with
  | raised e =>
    left
    refine ⟨e, ?_⟩
    simp only [catchAll] at h
    injection h with h2
    exact h2.symm
  | ok a => right; exact h
  | hang => simp [catchAll] at h

theorem mkChunks_length (ts : List Str) (sec : Option Str) :
    (mkChunks ts sec).length = ts.length := by
  simp [mkChunks]

theorem mkChunks_map_index (ts : List Str) (sec : Option Str) :
    (mkChunks ts sec).map DocumentChunk.chunkIndex = List.range ts.length := by
  unfold mkChunks
  rw [List.map_map]
  exact List.enum_map_fst ts

/-- The chunk list of every returned single-part result: one chunk whose
text is the whole split text, at index 0. -/
theorem mkChunks_single (t : Str) (sec : Option Str) :
    mkChunks [t] sec = [⟨0, t, sec, extractFinancialFigures t⟩] := rfl

theorem csvBody_ok (env : CsvEnv) (fuel : Nat) (r : ParsingResult CsvMeta)
    (h : csvBody env fuel = POut.ok r) : ResultInv r := by
  unfold csvBody at h
  dsimp only at h
  cases hr : readCsvWithFallbacks env.readAttempts with
  | none =>
    rw [hr] at h
    dsimp only at h
    injection h with h
    subst h
    exact failResult_inv _
  | some df =>
    rw [hr] at h
    dsimp only at h
    by_cases he : df.isEmpty = true
    · rw [if_pos he] at h
      injection h with h
      subst h
      exact failResult_inv _
    · rw [if_neg he] at h
      cases hl : env.libE with
      | error e => rw [hl] at h; simp [ofExcept, POut.bind] at h
      | ok u =>
        rw [hl] at h
        simp only [ofExcept, POut.bind] at h
        cases hs : splitIntoChunks fuel (dataframeToTextCsv (cleanDataframeCsv df)) 500 100 with
        | none => rw [hs] at h; simp at h
        | some texts =>
          rw [hs] at h
          dsimp only at h
          injection h with h
          subst h
          have ht := splitIntoChunks_eq _ _ _ hs
          subst ht
          refine ⟨by simp, fun _ => by simp [mkChunks_single], ?_⟩
          rw [mkChunks_map_index, mkChunks_length]

theorem pdfBody_ok (env : PdfEnv) (fuel : Nat) (r : ParsingResult PdfMeta)
    (h : pdfBody env fuel = POut.ok r) : ResultInv r := by
  unfold pdfBody at h
  dsimp only at h
  split at h
  · injection h with h
    subst h
    refine ⟨by simp, by simp, by simp⟩
  · cases hl : env.libE with
    | error e => rw [hl] at h; simp [ofExcept, POut.bind] at h
    | ok u =>
      rw [hl] at h
      simp only [ofExcept, POut.bind] at h
      rename_i ht3
      cases hs : splitIntoChunks fuel (cleanText _) 500 100 with
      | none => rw [hs] at h; simp at h
      | some texts =>
        rw [hs] at h
        dsimp only at h
        injection h with h
        subst h
        have ht := splitIntoChunks_eq _ _ _ hs
        subst ht
        refine ⟨by simp, fun _ => by simp [mkChunks_single], ?_⟩
        rw [mkChunks_map_index, mkChunks_length]

theorem xmlBody_ok (env : XmlEnv) (fuel : Nat) (r : ParsingResult XmlMeta)
    (h : xmlBody env fuel = POut.ok r) : ResultInv r := by
  unfold xmlBody at h
  cases ht : env.tree with
  | error e => rw [ht] at h; simp [ofExcept, POut.bind] at h
  | ok root =>
    rw [ht] at h
    simp only [ofExcept, POut.bind] at h
    cases hp : (if isXbrlDocument root then env.parsedXbrl else env.parsedXml) with
    | error e => rw [hp] at h; simp [ofExcept, POut.bind] at h
    | ok parsed =>
      rw [hp] at h
      simp only [ofExcept, POut.bind] at h
      cases hs : splitIntoChunks fuel (xmlToText root) 500 100 with
      | none => rw [hs] at h; simp at h
      | some texts =>
        rw [hs] at h
        dsimp only at h
        injection h with h
        subst h
        have ht2 := splitIntoChunks_eq _ _ _ hs
        subst ht2
        refine ⟨by simp, fun _ => by simp [mkChunks_single], ?_⟩
        rw [mkChunks_map_index, mkChunks_length]

theorem processSheet_facts (fuel : Nat) (nm : Str) (df : RawDF) (res : SheetRes)
    (h : processSheet fuel nm df = some res) :
    res.chunks.map DocumentChunk.chunkIndex = List.range res.chunks.length ∧
    (df.isEmpty = false → res.chunks ≠ []) := by
  unfold processSheet at h
  dsimp only at h
  split at h
  · rename_i hemp
    injection h with h
    subst h
    exact ⟨by simp, fun hf => absurd hemp (by simp [hf])⟩
  · rcases Option.map_eq_some'.mp h with ⟨texts, hs, rfl⟩
    have ht := splitIntoChunks_eq _ _ _ hs
    subst ht
    refine ⟨?_, fun _ => by simp [mkChunks_single]⟩
    dsimp only
    rw [mkChunks_map_index, mkChunks_length]

theorem processAll_some (fuel : Nat) :
    ∀ ss rs, processAll fuel ss = some rs →
      (∀ res ∈ rs, ∃ s ∈ ss, processSheet fuel s.1 s.2 = some res) ∧
      (∀ s ∈ ss, ∃ res ∈ rs, processSheet fuel s.1 s.2 = some res) := by
  intro ss
  induction ss with
  | nil =>
    intro rs h
    injection h with h
    subst h
    exact ⟨fun res hres => absurd hres (List.not_mem_nil res), fun s hs => absurd hs (List.not_mem_nil s)⟩
  | cons s ss ih =>
    intro rs h
    unfold processAll at h
    cases hp : processSheet fuel s.1 s.2 with
    | none => rw [hp] at h; cases h
    | some r0 =>
      rw [hp] at h
      dsimp only at h
      rcases Option.map_eq_some'.mp h with ⟨rest, hrest, rfl⟩
      obtain ⟨h1, h2⟩ := ih rest hrest
      constructor
      · intro res hres
        rcases List.mem_cons.mp hres with rfl | hres
        · exact ⟨s, List.mem_cons_self s ss, hp⟩
        · obtain ⟨s', hs', hps'⟩ := h1 res hres
          exact ⟨s', List.mem_cons_of_mem s hs', hps'⟩
      · intro s' hs'
        rcases List.mem_cons.mp hs' with rfl | hs'
        · exact ⟨r0, List.mem_cons_self r0 rest, hp⟩
        · obtain ⟨res, hres, hpres⟩ := h2 s' hs'
          exact ⟨res, List.mem_cons_of_mem r0 hres, hpres⟩

theorem excelBody_ok (env : ExcelEnv) (fuel : Nat) (sheets : List (Str × RawDF))
    (r : ParsingResult ExcelMeta) (h : excelBody env fuel sheets = POut.ok r) :
    (r.success = false ↔ r.errors ≠ []) ∧
    (r.success = true → ∃ rs, processAll fuel sheets = some rs ∧
      r.chunks = rs.flatMap SheetRes.chunks) := by
  unfold excelBody at h
  split at h
  · injection h with h
    subst h
    exact ⟨(failResult_inv _).1, by simp [failResult]⟩
  · cases hl : env.libE with
    | error e => rw [hl] at h; simp [ofExcept, POut.bind] at h
    | ok u =>
      rw [hl] at h
      simp only [ofExcept, POut.bind] at h
      cases hp : processAll fuel sheets with
      | none => rw [hp] at h; simp at h
      | some rs =>
        rw [hp] at h
        dsimp only at h
        injection h with h
        subst h
        exact ⟨by simp, fun _ => ⟨rs, rfl, rfl⟩⟩

theorem excelTry_ok (env : ExcelEnv) (fuel : Nat) (r : ParsingResult ExcelMeta)
    (h : excelTry env fuel = POut.ok r) :
    (r.success = false ↔ r.errors ≠ []) ∧
    (r.success = true → ∃ rs, processAll fuel (excelSheetsOf env) = some rs ∧
      r.chunks = rs.flatMap SheetRes.chunks) := by
  unfold excelTry at h
  cases ho : env.readOpenpyxl with
  | ok sheets =>
    rw [ho] at h
    have := excelBody_ok env fuel sheets r h
    rwa [show excelSheetsOf env = sheets by simp [excelSheetsOf, ho]]
  | error e1 =>
    rw [ho] at h
    cases hx : env.readXlrd with
    | ok sheets =>
      rw [hx] at h
      have := excelBody_ok env fuel sheets r h
      rwa [show excelSheetsOf env = sheets by simp [excelSheetsOf, ho, hx]]
    | error e2 =>
      rw [hx] at h
      injection h with h
      subst h
      exact ⟨(failResult_inv _).1, by simp [failResult]⟩

/-! ## Claim C4: the spec's CSV scenario -/

/-- The cleaned dataframe read from the scenario CSV
(`Item,2023,2022` header and the three data rows; pandas renders the
integer cells back as digit strings). -/
def c4df : DataFrame :=
  ⟨[strL "Item", strL "2023", strL "2022"],
   [[strL "Cash and equivalents", strL "1000", strL "900"],
    [strL "Accounts payable", strL "500", strL "450"],
    [strL "Total assets", strL "1500", strL "1350"]]⟩

set_option maxRecDepth 100000 in
/-- C4 counterexample: on the spec's own scenario the structure analysis
scores only 10 (the term `assets`) + 15 (two digit-bearing year columns)
= 25, because only 3 < 5 first-column items are balance-sheet items and
only one section header row is found; so `confidence_score` is 0.25, not
`> 0.3`, and `likely_balance_sheet` is `false`, not `true`. -/
theorem C4_counterexample_confidence :
    (analyzeCsvStructure c4df).confidenceScore = 1 / 4 ∧
    ¬((3 : ℚ) / 10 < (analyzeCsvStructure c4df).confidenceScore) ∧
    (analyzeCsvStructure c4df).likelyBalanceSheet = false := by
  have h1 : (analyzeCsvStructure c4df).confidenceScore = 1 / 4 := by
    with_unfolding_all rfl
  refine ⟨h1, ?_, ?_⟩
  · rw [h1]; norm_num
  · with_unfolding_all rfl

set_option maxRecDepth 100000 in
/-- C4 amended: the scenario yields `confidence_score = 0.25` (which is
not `> 0.3`) and `likely_balance_sheet = false`; the line-item half of the
claim does hold — the extracted balance-sheet items contain at least one
item categorized `asset_cash_and_equivalents` and at least one categorized
`liability_accounts_payable`. -/
theorem C4_scenario_amended :
    (analyzeCsvStructure c4df).confidenceScore = 1 / 4 ∧
    (analyzeCsvStructure c4df).likelyBalanceSheet = false ∧
    (analyzeCsvStructure c4df).timeSeries = true ∧
    ((extractBsFromDf isBsLineItemCsv categorizeCsv c4df).assets.any
      fun i => i.category == strL "asset_cash_and_equivalents") = true ∧
    ((extractBsFromDf isBsLineItemCsv categorizeCsv c4df).liabilities.any
      fun i => i.category == strL "liability_accounts_payable") = true := by
  refine ⟨by with_unfolding_all rfl, by with_unfolding_all rfl,
    by with_unfolding_all rfl, by decide, by decide⟩

/-! ## Claim C5: the PDF extraction-method metadata -/

/-- A PDF on which the layout-aware pdfplumber pass extracts nothing and
the PyPDF2 fallback extracts 150 characters. -/
def c5env : PdfEnv :=
  ⟨[], List.replicate 150 'x', [], false, [], 1, Except.ok ()⟩

/-- Default results for reading a returned value out of an outcome. -/
def dRP : ParsingResult PdfMeta := failResult (strL "unused-default")

set_option maxRecDepth 100000 in
/-- C5: with the primary method yielding under 100 characters, the parse
succeeds on the secondary (PyPDF2) text — the single chunk is exactly that
text — yet the `extraction_method` metadata still says `pdfplumber`,
because `_determine_extraction_method` is a stub constantly returning
`"pdfplumber"` (its own comment says tracking is not implemented).  This
contradicts both the spec sentence and the helper's docstring. -/
theorem C5_extraction_method_not_tracked :
    (pdfParse c5env 3).isOk = true ∧
    ((pdfParse c5env 3).resultD dRP).success = true ∧
    ((pdfParse c5env 3).resultD dRP).chunks.map DocumentChunk.text =
      [List.replicate 150 'x'] ∧
    ((pdfParse c5env 3).resultD dRP).metadata.map PdfMeta.extractionMethod =
      some (strL "pdfplumber") ∧
    determineExtractionMethod = strL "pdfplumber" := by
  refine ⟨by decide, by decide, by decide, by decide, rfl⟩

/-! ## Claim C6: figure extraction -/

/-- Python `Decimal(...)` raising `InvalidOperation` on an unparsable
numeral, as an `Except`. -/
def decimalE (s : Str) : Except Str Dec :=
  match parseDec s with
  | some d => Except.ok d
  | none => Except.error (strL "InvalidOperation")

/-- The figure loop of `extract_financial_figures` with its per-match
`try/except (InvalidOperation, ValueError): continue` made explicit:
exactly those two exception classes are swallowed, anything else would
propagate. -/
def figsOfE (cur text : Str) : List Str → Except Str (List Figure)
  | [] => Except.ok []
  | m :: ms =>
    match decimalE (stripCommas m) with
    | Except.ok a =>
      (figsOfE cur text ms).map fun rest =>
        ⟨a, cur, m, getContext text m 50⟩ :: rest
    | Except.error e =>
      if e = strL "InvalidOperation" ∨ e = strL "ValueError" then figsOfE cur text ms
      else Except.error e

/-- The whole extraction with explicit exception propagation. -/
def extractFinancialFiguresE (text : Str) : Except Str (List Figure) := do
  let usd ← figsOfE (strL "USD") text (findallSym '$' text)
  let eur ← figsOfE (strL "EUR") text (findallSym '€' text)
  let gbp ← figsOfE (strL "GBP") text (findallSym '£' text)
  let gen ← figsOfE (strL "USD") text (findallNum text)
  pure (usd ++ eur ++ gbp ++ gen)

theorem figsOfE_ok (cur text : Str) (ms : List Str) :
    figsOfE cur text ms = Except.ok (figsOf cur text ms) := by
  induction ms with
  | nil => rfl
  | cons m ms ih =>
    unfold figsOfE figsOf
    cases hp : parseDec (stripCommas m) with
    | some a => simp [decimalE, hp, ih, figsOf, Except.map]
    | none => simp [decimalE, hp, ih, figsOf]

/-- The expected figure for the scenario text: both the `$` pattern and
the generic pattern capture `1,234.56`, each parsed to the decimal with
coefficient 123456 and two fraction digits, currency USD, context the
whole text. -/
def c6fig : Figure :=
  ⟨⟨123456, 2⟩, strL "USD", strL "1,234.56", strL "$1,234.56"⟩

/-- C6: `"$1,234.56"` yields a non-empty figure list — the currency match
and the generic match, both with amount 1234.56 and currency USD;
`"abc"` yields the empty list; and for every text the extraction never
propagates an exception (each unparsable capture is skipped by the
per-match handler), returning exactly the total-function result. -/
theorem C6_figure_extraction :
    extractFinancialFigures (strL "$1,234.56") = [c6fig, c6fig] ∧
    c6fig.amount = ⟨123456, 2⟩ ∧
    Dec.toQ c6fig.amount = 1234.56 ∧
    c6fig.currency = strL "USD" ∧
    extractFinancialFigures (strL "abc") = [] ∧
    (∀ text, extractFinancialFiguresE text =
      Except.ok (extractFinancialFigures text)) := by
  refine ⟨by decide, rfl, by with_unfolding_all rfl, rfl, by decide, ?_⟩
  intro text
  unfold extractFinancialFiguresE extractFinancialFigures
  rw [figsOfE_ok, figsOfE_ok, figsOfE_ok, figsOfE_ok]
  rfl

/-! ## Claim C7: the category classifier -/

theorem firstMatchCat_isSome (cats : List (Str × List (List PTok))) (low : Str) :
    (firstMatchCat cats low).isSome = anyPatMatches cats low := by
  induction cats with
  | nil => rfl
  | cons c rest ih =>
    unfold firstMatchCat anyPatMatches
    by_cases h : c.2.any fun p => reSearch p low
    · simp [h]
    · simp only [h, if_false, Bool.false_or, List.any_cons]
      simpa [anyPatMatches] using ih

theorem firstMatchCat_none (cats : List (Str × List (List PTok))) (low : Str)
    (h : anyPatMatches cats low = false) : firstMatchCat cats low = none := by
  have := firstMatchCat_isSome cats low
  rw [h] at this
  exact Option.not_isSome_iff_eq_none.mp (by simp [this])

theorem firstMatchCat_some (cats : List (Str × List (List PTok))) (low : Str)
    (h : anyPatMatches cats low = true) : ∃ v, firstMatchCat cats low = some v := by
  have := firstMatchCat_isSome cats low
  rw [h] at this
  exact Option.isSome_iff_exists.mp this

/-- Category strings never collide with "unknown": their first
characters differ. -/
theorem asset_append_ne_unknown (v : Str) : strL "asset_" ++ v ≠ strL "unknown" := by
  intro h
  have := congrArg (fun s => s.headD ' ') h
  simp [strL] at this

theorem liability_append_ne_unknown (v : Str) : strL "liability_" ++ v ≠ strL "unknown" := by
  intro h
  have := congrArg (fun s => s.headD ' ') h
  simp [strL] at this

theorem equity_append_ne_unknown (v : Str) : strL "equity_" ++ v ≠ strL "unknown" := by
  intro h
  have := congrArg (fun s => s.headD ' ') h
  simp [strL] at this

/-- C7: asset patterns are tested first — any label matching an asset
pattern classifies under an `asset_` category even if it also matches a
liability pattern; liability patterns come second; a label matching no
specific pattern and no coarse keyword classifies `unknown` (the iff also
shows the fallback keyword lists are exactly the remaining gate); and the
three spec instances hold. -/
theorem C7_classifier_precedence :
    (∀ label, anyPatMatches assetPatterns (pyLower label) = true →
      (categorizeCsv label).take 6 = strL "asset_") ∧
    (∀ label, anyPatMatches assetPatterns (pyLower label) = false →
      anyPatMatches liabilityPatterns (pyLower label) = true →
      (categorizeCsv label).take 10 = strL "liability_") ∧
    (∀ label, categorizeCsv label = strL "unknown" ↔
      (anyPatMatches assetPatterns (pyLower label) = false ∧
       anyPatMatches liabilityPatterns (pyLower label) = false ∧
       anyPatMatches equityPatterns (pyLower label) = false ∧
       (csvAssetKw.any fun t => containsSub (pyLower label) (strL t)) = false ∧
       (csvLiabKw.any fun t => containsSub (pyLower label) (strL t)) = false ∧
       (equityKw.any fun t => containsSub (pyLower label) (strL t)) = false)) ∧
    categorizeCsv (strL "Cash and cash equivalents") = strL "asset_cash_and_equivalents" ∧
    categorizeCsv (strL "Accounts payable") = strL "liability_accounts_payable" ∧
    categorizeCsv (strL "xyz123") = strL "unknown" := by
  refine ⟨?_, ?_, ?_, by decide, by decide, by decide⟩
  · intro label h
    obtain ⟨v, hv⟩ := firstMatchCat_some _ _ h
    unfold categorizeCsv categorizeWith categorizeLow
    rw [hv]
    have h6 : (strL "asset_").length = 6 := rfl
    rw [← h6]
    exact List.take_left _ _
  · intro label ha hl
    obtain ⟨v, hv⟩ := firstMatchCat_some _ _ hl
    unfold categorizeCsv categorizeWith categorizeLow
    rw [firstMatchCat_none _ _ ha, hv]
    have h10 : (strL "liability_").length = 10 := rfl
    rw [← h10]
    exact List.take_left _ _
  · intro label
    unfold categorizeCsv categorizeWith categorizeLow
    constructor
    · intro h
      cases hA : firstMatchCat assetPatterns (pyLower label) with
      | some v =>
        rw [hA] at h
        exact absurd h (asset_append_ne_unknown v)
      | none =>
      cases hL : firstMatchCat liabilityPatterns (pyLower label) with
      | some v =>
        rw [hA, hL] at h
        exact absurd h (liability_append_ne_unknown v)
      | none =>
      cases hE : firstMatchCat equityPatterns (pyLower label) with
      | some v =>
        rw [hA, hL, hE] at h
        exact absurd h (equity_append_ne_unknown v)
      | none =>
        rw [hA, hL, hE] at h
        have hA' : anyPatMatches assetPatterns (pyLower label) = false := by
          have := firstMatchCat_isSome assetPatterns (pyLower label)
          rw [hA] at this; simpa using this.symm
        have hL' : anyPatMatches liabilityPatterns (pyLower label) = false := by
          have := firstMatchCat_isSome liabilityPatterns (pyLower label)
          rw [hL] at this; simpa using this.symm
        have hE' : anyPatMatches equityPatterns (pyLower label) = false := by
          have := firstMatchCat_isSome equityPatterns (pyLower label)
          rw [hE] at this; simpa using this.symm
        by_cases ka : (csvAssetKw.any fun t => containsSub (pyLower label) (strL t)) = true
        · rw [if_pos ka] at h; exact absurd h (by decide)
        · rw [if_neg ka] at h
          by_cases kl : (csvLiabKw.any fun t => containsSub (pyLower label) (strL t)) = true
          · rw [if_pos kl] at h; exact absurd h (by decide)
          · rw [if_neg kl] at h
            by_cases ke : (equityKw.any fun t => containsSub (pyLower label) (strL t)) = true
            · rw [if_pos ke] at h; exact absurd h (by decide)
            · exact ⟨hA', hL', hE', by simpa using ka, by simpa using kl,
                by simpa using ke⟩
    · rintro ⟨hA, hL, hE, hka, hkl, hke⟩
      rw [firstMatchCat_none _ _ hA, firstMatchCat_none _ _ hL,
        firstMatchCat_none _ _ hE, if_neg (by simp [hka]), if_neg (by simp [hkl]),
        if_neg (by simp [hke])]

/-- C7 witness instances. -/
theorem C7_classifier_witness :
    (categorizeCsv (strL "cash")).take 6 = strL "asset_" ∧
    (categorizeCsv (strL "trade payables")).take 10 = strL "liability_" :=
  ⟨C7_classifier_precedence.1 (strL "cash") (by decide),
   C7_classifier_precedence.2.1 (strL "trade payables") (by decide) (by decide)⟩

/-! ## Claim C8: table structure detection -/

/-- Does a line hold at least two recognized figures (the row heuristic of
`detect_table_structure`)? -/
def qualifiesLine (l : Str) : Bool := 2 ≤ (extractFinancialFigures l).length

/-- Lengths of the maximal runs of `true`, with an accumulator for the
run in progress. -/
def runLens : List Bool → Nat → List Nat
  | [], n => if n = 0 then [] else [n]
  | true :: bs, n => runLens bs (n + 1)
  | false :: bs, n => (if n = 0 then [] else [n]) ++ runLens bs 0

theorem runLens_nil (n : Nat) : runLens [] n = if n = 0 then [] else [n] := rfl

theorem runLens_true (bs : List Bool) (n : Nat) :
    runLens (true :: bs) n = runLens bs (n + 1) := rfl

theorem runLens_false (bs : List Bool) (n : Nat) :
    runLens (false :: bs) n = (if n = 0 then [] else [n]) ++ runLens bs 0 := rfl

theorem detectLoop_rowCounts (ls : List Str) :
    ∀ cur, (detectLoop ls cur).map DetTable.rowCount =
      (runLens (ls.map qualifiesLine) cur.length).filter fun n => 3 ≤ n := by
  induction ls with
  | nil =>
    intro cur
    unfold detectLoop
    simp only [List.map_nil, runLens_nil]
    by_cases h0 : cur.length = 0
    · rw [if_pos h0, if_neg (show ¬cur.length ≥ 3 by omega)]
      rfl
    · rw [if_neg h0]
      by_cases h3 : cur.length ≥ 3
      · rw [if_pos h3]
        simp [h3]
      · rw [if_neg h3]
        simp [h3]
  | cons l ls ih =>
    intro cur
    unfold detectLoop
    by_cases hq : 2 ≤ (extractFinancialFigures l).length
    · rw [if_pos hq]
      have hql : qualifiesLine l = true := by simp [qualifiesLine, hq]
      simp only [List.map_cons, hql, runLens_true]
      rw [ih]
      simp
    · rw [if_neg hq]
      have hql : qualifiesLine l = false := by simp [qualifiesLine, hq]
      simp only [List.map_cons, hql, runLens_false, List.filter_append, List.map_append]
      rw [ih]
      congr 1
      by_cases h0 : cur.length = 0
      · rw [if_pos h0, if_neg (show ¬cur.length ≥ 3 by omega)]
        rfl
      · rw [if_neg h0]
        by_cases h3 : cur.length ≥ 3
        · rw [if_pos h3]
          simp [h3]
        · rw [if_neg h3]
          simp [h3]

theorem detectLoop_counts_eq_rows (ls : List Str) :
    ∀ cur, (∀ t ∈ detectLoop ls cur, t.rowCount = t.rows.length) := by
  induction ls with
  | nil =>
    intro cur t ht
    unfold detectLoop at ht
    by_cases h3 : cur.length ≥ 3
    · rw [if_pos h3] at ht
      rw [List.mem_singleton.mp ht]
    · rw [if_neg h3] at ht
      cases ht
  | cons l ls ih =>
    intro cur t ht
    unfold detectLoop at ht
    by_cases hq : (extractFinancialFigures l).length ≥ 2
    · rw [if_pos hq] at ht
      exact ih _ t ht
    · rw [if_neg hq] at ht
      rcases List.mem_append.mp ht with h | h
      · by_cases h3 : cur.length ≥ 3
        · rw [if_pos h3] at h
          rw [List.mem_singleton.mp h]
        · rw [if_neg h3] at h
          cases h
      · exact ih [] t h

/-- The two concrete inputs of the spec's testable property. -/
def c8text3 : Str := strL "a 1 2\nb 3 4\nc 5 6"

/-- Two qualifying lines only. -/
def c8text2 : Str := strL "a 1 2\nb 3 4"

/-- C8: the detector reports one table per maximal contiguous run of at
least 3 lines having at least 2 recognized figures, with `row_count` the
run length (stated as: the row counts are exactly the `≥ 3` run lengths of
the qualifying-line pattern, and each table's `row_count` equals its
number of collected rows); in particular three consecutive qualifying
lines give exactly one table with `row_count` 3 and two such lines give no
table. -/
theorem C8_table_structure_runs :
    (∀ text, (detectTableStructure text).map DetTable.rowCount =
      (runLens ((pySplit '\n' text).map qualifiesLine) 0).filter fun n => 3 ≤ n) ∧
    (∀ text, (detectTableStructure text).map DetTable.rowCount =
      (detectTableStructure text).map fun t => t.rows.length) ∧
    (detectTableStructure c8text3).map DetTable.rowCount = [3] ∧
    (detectTableStructure c8text3).length = 1 ∧
    detectTableStructure c8text2 = [] := by
  refine ⟨?_, ?_, by decide, by decide, by decide⟩
  · intro text
    exact detectLoop_rowCounts (pySplit '\n' text) []
  · intro text
    exact List.map_congr_left fun t ht =>
      detectLoop_counts_eq_rows (pySplit '\n' text) [] t ht

/-! ## Claims C1, C2, C3: the uniform parse contract -/

/-- C1: no back-end entry point ever lets an exception propagate — every
outcome of each `parse` is either a returned `ParsingResult` or (for the
non-terminating chunker, claim C9) no return at all, never a raised
exception; and a returned result has `success = false` exactly when its
error list is non-empty, so every internal failure surfaces as
`success=false` with a non-empty `errors`. -/
theorem C1_no_exception_propagation :
    (∀ env fuel e, csvParse env fuel ≠ POut.raised e) ∧
    (∀ env fuel e, pdfParse env fuel ≠ POut.raised e) ∧
    (∀ env fuel e, xmlParse env fuel ≠ POut.raised e) ∧
    (∀ env fuel e, excelParse env fuel ≠ POut.raised e) ∧
    (∀ env fuel r, csvParse env fuel = POut.ok r → (r.success = false ↔ r.errors ≠ [])) ∧
    (∀ env fuel r, pdfParse env fuel = POut.ok r → (r.success = false ↔ r.errors ≠ [])) ∧
    (∀ env fuel r, xmlParse env fuel = POut.ok r → (r.success = false ↔ r.errors ≠ [])) ∧
    (∀ env fuel r, excelParse env fuel = POut.ok r → (r.success = false ↔ r.errors ≠ [])) := by
  refine ⟨?_, ?_, ?_, ?_, ?_, ?_, ?_, ?_⟩
  · intro env fuel e; exact catchAll_ne_raised _ _ e
  · intro env fuel e; exact catchAll_ne_raised _ _ e
  · intro env fuel e; exact catchAll_ne_raised _ _ e
  · intro env fuel e; exact catchAll_ne_raised _ _ e
  · intro env fuel r h
    rcases catchAll_ok _ _ _ h with ⟨e, rfl⟩ | hb
    · exact (failResult_inv _).1
    · exact (csvBody_ok _ _ _ hb).1
  · intro env fuel r h
    rcases catchAll_ok _ _ _ h with ⟨e, rfl⟩ | hb
    · exact (failResult_inv _).1
    · exact (pdfBody_ok _ _ _ hb).1
  · intro env fuel r h
    rcases catchAll_ok _ _ _ h with ⟨e, rfl⟩ | hb
    · exact (failResult_inv _).1
    · exact (xmlBody_ok _ _ _ hb).1
  · intro env fuel r h
    rcases catchAll_ok _ _ _ h with ⟨e, rfl⟩ | hb
    · exact (failResult_inv _).1
    · exact (excelTry_ok _ _ _ hb).1

/-- An XML environment whose `ET.parse` raises. -/
def xmlBadEnv : XmlEnv :=
  ⟨Except.error (strL "not well-formed"), Except.error (strL "unused"),
   Except.error (strL "unused")⟩

/-- Default results for reading values out of outcomes. -/
def dRX : ParsingResult XmlMeta := failResult (strL "unused-default")

/-- Default result for the Excel outcomes. -/
def dRE : ParsingResult ExcelMeta := failResult (strL "unused-default")

/-- Default result for the CSV outcomes. -/
def dRC : ParsingResult CsvMeta := failResult (strL "unused-default")

/-- C1 witness: a malformed XML document is converted into a returned
failure result with its error recorded, and nothing is raised. -/
theorem C1_no_exception_witness :
    xmlParse xmlBadEnv 1 ≠ POut.raised (strL "not well-formed") ∧
    (((xmlParse xmlBadEnv 1).resultD dRX).success = false ↔
      ((xmlParse xmlBadEnv 1).resultD dRX).errors ≠ []) :=
  ⟨C1_no_exception_propagation.2.2.1 xmlBadEnv 1 (strL "not well-formed"),
   C1_no_exception_propagation.2.2.2.2.2.2.1 xmlBadEnv 1 _ rfl⟩

/-- A frame as `pd.read_excel` returns it for a sheet with one header and
one data cell. -/
def cashRaw : RawDF := ⟨[strL "Cash"], [[some (strL "100")]]⟩

/-- The empty frame of an empty sheet. -/
def emptyRawDF : RawDF := ⟨[], []⟩

/-- A workbook whose single sheet is empty. -/
def c2env : ExcelEnv :=
  ⟨Except.ok [(strL "Sheet1", emptyRawDF)], Except.error (strL "unused"),
   strL ".xlsx", Except.ok ()⟩

/-- A workbook with two non-empty sheets. -/
def c3env : ExcelEnv :=
  ⟨Except.ok [(strL "A", cashRaw), (strL "B", cashRaw)], Except.error (strL "unused"),
   strL ".xlsx", Except.ok ()⟩

/-- A PDF whose extracted text is 150 non-printable bytes: truthy and
long enough to stop the fallback chain, but cleaned to the empty string. -/
def c3penv : PdfEnv :=
  ⟨List.replicate 150 '\x01', [], [], false, [], 0, Except.ok ()⟩

set_option maxRecDepth 100000 in
/-- C2 counterexample: a workbook whose only sheet is empty parses with
`success = true` and yet neither a chunk nor a table, refuting
`success=true ⇒ ≥ 1 chunk or table`. -/
theorem C2_counterexample_empty_workbook :
    (excelParse c2env 3).isOk = true ∧
    ((excelParse c2env 3).resultD dRE).success = true ∧
    ((excelParse c2env 3).resultD dRE).chunks = [] ∧
    ((excelParse c2env 3).resultD dRE).tables = [] := by
  refine ⟨by decide, by decide, by decide, by decide⟩

/-- C2 amended: for the CSV, PDF and XML back-ends every returned
successful result has at least one chunk; for the spreadsheet back-end
this holds provided at least one sheet is non-empty (a workbook of empty
sheets returns success with no chunks and no tables). -/
theorem C2_success_implies_content :
    (∀ env fuel r, csvParse env fuel = POut.ok r → r.success = true → r.chunks ≠ []) ∧
    (∀ env fuel r, pdfParse env fuel = POut.ok r → r.success = true → r.chunks ≠ []) ∧
    (∀ env fuel r, xmlParse env fuel = POut.ok r → r.success = true → r.chunks ≠ []) ∧
    (∀ env fuel r, excelParse env fuel = POut.ok r → r.success = true →
      (∃ p ∈ excelSheetsOf env, p.2.isEmpty = false) → r.chunks ≠ []) := by
  refine ⟨?_, ?_, ?_, ?_⟩
  · intro env fuel r h hs
    rcases catchAll_ok _ _ _ h with ⟨e, rfl⟩ | hb
    · simp [failResult] at hs
    · exact (csvBody_ok _ _ _ hb).2.1 hs
  · intro env fuel r h hs
    rcases catchAll_ok _ _ _ h with ⟨e, rfl⟩ | hb
    · simp [failResult] at hs
    · exact (pdfBody_ok _ _ _ hb).2.1 hs
  · intro env fuel r h hs
    rcases catchAll_ok _ _ _ h with ⟨e, rfl⟩ | hb
    · simp [failResult] at hs
    · exact (xmlBody_ok _ _ _ hb).2.1 hs
  · intro env fuel r h hs hne
    rcases catchAll_ok _ _ _ h with ⟨e, rfl⟩ | hb
    · simp [failResult] at hs
    · obtain ⟨rs, hrs, hchunks⟩ := (excelTry_ok _ _ _ hb).2 hs
      obtain ⟨p, hp, hpe⟩ := hne
      obtain ⟨res, hres, hps⟩ := (processAll_some fuel _ rs hrs).2 p hp
      have hch := (processSheet_facts _ _ _ _ hps).2 hpe
      rw [hchunks]
      simp only [ne_eq, List.flatMap_eq_nil_iff]
      intro hall
      exact hch (hall res hres)

/-- C2 witness: a one-row CSV environment returning a successful parse
with a chunk, and the two-sheet workbook likewise. -/
def csvGoodEnv : CsvEnv :=
  ⟨Except.error (strL "unused"), [],
   [Except.ok ⟨[strL "Item", strL "Val"], [[some (strL "Cash"), some (strL "100")]]⟩],
   Except.ok ()⟩

set_option maxRecDepth 100000 in
/-- C2 witness instances. -/
theorem C2_success_witness :
    ((csvParse csvGoodEnv 3).resultD dRC).chunks ≠ [] ∧
    ((excelParse c3env 3).resultD dRE).chunks ≠ [] :=
  ⟨C2_success_implies_content.1 csvGoodEnv 3 _ (by with_unfolding_all rfl) (by decide),
   C2_success_implies_content.2.2.2 c3env 3 _ (by with_unfolding_all rfl) (by decide)
     ⟨(strL "A", cashRaw), by decide, by decide⟩⟩

set_option maxRecDepth 100000 in
/-- C3 counterexample: the two-sheet workbook returns success with chunk
indices `[0, 0]` — per-sheet numbering restarts, so indices across the
document are neither unique nor increasing; and a PDF whose cleaned text
is empty returns success with one chunk whose text is empty, refuting the
non-empty-text half as well. -/
theorem C3_counterexample_indices :
    ((excelParse c3env 3).resultD dRE).success = true ∧
    ((excelParse c3env 3).resultD dRE).chunks.map DocumentChunk.chunkIndex = [0, 0] ∧
    ¬List.Pairwise (· < ·)
      (((excelParse c3env 3).resultD dRE).chunks.map DocumentChunk.chunkIndex) ∧
    ((pdfParse c3penv 3).resultD dRP).success = true ∧
    ((pdfParse c3penv 3).resultD dRP).chunks.map DocumentChunk.text = [[]] := by
  refine ⟨by decide, by decide, by decide, by decide, by decide⟩

/-- C3 amended: chunk indices are `0, 1, 2, …` within each document part
— the whole document for CSV/PDF/XML, each sheet for the spreadsheet
back-end, whose whole-document chunk list is the concatenation of
per-sheet blocks each indexed from 0 (so a multi-sheet workbook repeats
indices, and a chunk's text can be empty when the part's cleaned text is
empty). -/
theorem C3_chunk_indices_per_part :
    (∀ env fuel r, csvParse env fuel = POut.ok r →
      r.chunks.map DocumentChunk.chunkIndex = List.range r.chunks.length) ∧
    (∀ env fuel r, pdfParse env fuel = POut.ok r →
      r.chunks.map DocumentChunk.chunkIndex = List.range r.chunks.length) ∧
    (∀ env fuel r, xmlParse env fuel = POut.ok r →
      r.chunks.map DocumentChunk.chunkIndex = List.range r.chunks.length) ∧
    (∀ env fuel r, excelParse env fuel = POut.ok r → r.success = true →
      ∃ parts : List (List DocumentChunk), r.chunks = parts.flatten ∧
        ∀ p ∈ parts, p.map DocumentChunk.chunkIndex = List.range p.length) := by
  refine ⟨?_, ?_, ?_, ?_⟩
  · intro env fuel r h
    rcases catchAll_ok _ _ _ h with ⟨e, rfl⟩ | hb
    · simp [failResult]
    · exact (csvBody_ok _ _ _ hb).2.2
  · intro env fuel r h
    rcases catchAll_ok _ _ _ h with ⟨e, rfl⟩ | hb
    · simp [failResult]
    · exact (pdfBody_ok _ _ _ hb).2.2
  · intro env fuel r h
    rcases catchAll_ok _ _ _ h with ⟨e, rfl⟩ | hb
    · simp [failResult]
    · exact (xmlBody_ok _ _ _ hb).2.2
  · intro env fuel r h hs
    rcases catchAll_ok _ _ _ h with ⟨e, rfl⟩ | hb
    · simp [failResult] at hs
    · obtain ⟨rs, hrs, hchunks⟩ := (excelTry_ok _ _ _ hb).2 hs
      refine ⟨rs.map SheetRes.chunks, ?_, ?_⟩
      · rw [hchunks, List.flatMap_def]
      · intro p hp
        obtain ⟨res, hres, rfl⟩ := List.mem_map.mp hp
        obtain ⟨s, _, hps⟩ := (processAll_some fuel _ rs hrs).1 res hres
        exact (processSheet_facts _ _ _ _ hps).1

set_option maxRecDepth 100000 in
/-- C3 witness instance: the one-row CSV parse has chunk indices
`range`-numbered. -/
theorem C3_chunk_indices_witness :
    ((csvParse csvGoodEnv 3).resultD dRC).chunks.map DocumentChunk.chunkIndex =
      List.range ((csvParse csvGoodEnv 3).resultD dRC).chunks.length :=
  C3_chunk_indices_per_part.1 csvGoodEnv 3 _ (by with_unfolding_all rfl)

end BSRag
